import Mathlib

set_option maxRecDepth 8000
set_option maxHeartbeats 2000000

/-!
Verification of the feature-tensor encoding pipeline of the
`footballmachine` repository (src/data_processing/tensor_builder.py).

The Python code is shallowly embedded: Python values that can appear in a
player / game / play record are modelled by the inductive type `Val`;
Python floats are modelled by exact rationals (every numeric constant the
pipeline writes — small integers, flags, score differences — is exactly
representable in 32-bit floating point, so `Rat` arithmetic agrees with the
float32 arithmetic of the source on everything proved here).  Code that can
raise (attribute access on a non-dict) is embedded in `Except String`; the
`try/except` wrappers of the source become `match` on the `Except` value.
The builtin `hash` of CPython is a per-process salted string hash; the
embedding therefore takes the process hash function as an explicit
parameter `phash : String → Int`.
-/

/-- A Python value as it can occur in the records fed to `TensorBuilder`. -/
inductive Val where
  | none
  | bool (b : Bool)
  | int (n : Int)
  | float (q : Rat)
  | str (s : String)
  | list (xs : List Val)
  | dict (xs : List (String × Val))

/-- `d.get(k, dflt)` on a Python dict, embedded as an association list. -/
def dGet (d : List (String × Val)) (k : String) (dflt : Val) : Val :=
  (List.lookup k d).getD dflt

/-- Attribute access `.get` on an arbitrary value: succeeds only on a dict,
raises `AttributeError` otherwise (the error the `try/except` blocks of the
source catch). -/
def requireDict : Val → Except String (List (String × Val))
  | .dict d => .ok d
  | _ => .error "AttributeError"

/-- `college_stats.get('passing', ⟨⟩)` followed by attribute access on the
result: the nested sub-mapping must itself be a dict. -/
def subDict (d : List (String × Val)) (k : String) :
    Except String (List (String × Val)) :=
  requireDict (dGet d k (Val.dict []))

/-- Decimal digit value of a character, if it is a digit. -/
def digitVal (c : Char) : Option Nat :=
  if c.isDigit then some (c.toNat - 48) else none

/-- Value of a nonempty all-digit character list. -/
def digitsVal : List Char → Option Nat
  | [] => Option.none
  | [c] => digitVal c
  | c :: rest => do
      let d ← digitVal c
      let r ← digitsVal rest
      pure (d * 10 ^ rest.length + r)

/-- Model of the builtin `float(str)` on plain decimal literals
(`[sign] digits [. digits]`); other strings fail, as they must only agree
with CPython up to definedness on the strings any theorem below touches. -/
def parseDecimal (cs : List Char) : Option Rat :=
  let core : List Char → Option Rat := fun body =>
    match body.splitOn '.' with
    | [intPart] => do
        let n ← digitsVal intPart
        pure (n : Rat)
    | [intPart, fracPart] => do
        let n ← digitsVal intPart
        let f ← digitsVal fracPart
        pure ((n : Rat) + (f : Rat) / ((10 : Rat) ^ fracPart.length))
    | _ => Option.none
  match cs with
  | '-' :: rest => (core rest).map (fun q => -q)
  | '+' :: rest => core rest
  | _ => core cs

/-- Model of the builtin `float(value)`: `none` when Python `float()` would
raise `ValueError`/`TypeError`. -/
def pyFloat : Val → Option Rat
  | .int n => some (n : Rat)
  | .float q => some q
  | .bool b => some (if b then 1 else 0)
  | .str s => parseDecimal s.toList
  | _ => Option.none

/-- `TensorBuilder._safe_float`: `default` for `None` and for values
`float()` cannot convert, the converted value otherwise. -/
def safe_float (v : Val) (dflt : Rat) : Rat :=
  match v with
  | .none => dflt
  | _ => (pyFloat v).getD dflt

/-- Model of the builtin `str(value)`.  The branches for floats and
containers are abbreviated stand-ins: no theorem below depends on them
(they only feed the keyword-substring search, where any fixed text works). -/
def pyStr : Val → String
  | .none => "None"
  | .bool true => "True"
  | .bool false => "False"
  | .int n => toString n
  | .float _ => "float"
  | .str s => s
  | .list _ => "list"
  | .dict _ => "dict"

/-- Python truthiness, as used by `1.0 if game_info.get('dome', False) else 0.0`. -/
def pyTruthy : Val → Bool
  | .none => false
  | .bool b => b
  | .int n => n != 0
  | .float q => q != 0
  | .str s => s.toList.length != 0
  | .list xs => xs.length != 0
  | .dict xs => xs.length != 0

/-- Python `value == n` against an int literal, as in
`play_state.get('possession', 0) == 1`. -/
def pyEqInt (v : Val) (n : Int) : Bool :=
  match v with
  | .int m => m == n
  | .bool b => (if b then (1 : Int) else 0) == n
  | .float q => q == (n : Rat)
  | _ => false

/-- `str.lower()`, character-wise over the code points. -/
def pyLower (s : String) : List Char :=
  s.toList.map Char.toLower

/-- `str.upper()`, character-wise over the code points. -/
def upperChars (s : String) : List Char :=
  s.toList.map Char.toUpper

/-- Does `needle` start the list `hay`? -/
def leadsWith : List Char → List Char → Bool
  | [], _ => true
  | _ :: _, [] => false
  | a :: as, b :: bs => a == b && leadsWith as bs

/-- Python `needle in hay` on strings: contiguous-substring containment. -/
def containsSub (needle : List Char) : List Char → Bool
  | [] => needle.isEmpty
  | c :: rest => leadsWith needle (c :: rest) || containsSub needle rest

/-- `kw in hay` where `hay` is an already-lowercased character list. -/
def pyContains (hay : List Char) (kw : String) : Bool :=
  containsSub kw.toList hay

/-- `TensorBuilder._position_to_num`: the fixed position enumeration,
`position_map.get(str(position).upper(), 0.0)`. -/
def position_to_num (position : Val) : Rat :=
  (List.lookup (upperChars (pyStr position))
    [("QB".toList, (1 : Rat)), ("RB".toList, 2), ("WR".toList, 3),
     ("TE".toList, 4), ("OL".toList, 5), ("DL".toList, 6),
     ("LB".toList, 7), ("DB".toList, 8), ("K".toList, 9),
     ("P".toList, 10)]).getD 0

/-- The categorical-code pattern of the source:
`abs(hash(str(x))) % modulus`, with the process string-hash `phash`
explicit. -/
def categorical_code (phash : String → Int) (s : String) (modulus : Nat) : Nat :=
  (phash s).natAbs % modulus

/-- One step of 64-bit FNV-1a. -/
def fnvStep (acc b : Nat) : Nat :=
  ((acc ^^^ b) * 1099511628211) % 18446744073709551616

/-- Modelled from the spec: the builtin `hash()` CPython applies to strings
in `tensor_builder.py` is per-process salted (spec §9: "Process-randomized
hashing for categorical codes"); the salt is drawn once per process
(`PYTHONHASHSEED`).  CPython's seeded siphash is not part of the
repository, so it is modelled as a seed-keyed 64-bit FNV-1a over the
character code points (equal to the UTF-8 bytes on the ASCII strings used
here): what matters for the claims is exactly the seed-dependence the spec
attests. -/
def pyStrHash (seed : Nat) (s : String) : Int :=
  (s.toList.foldl (fun acc c => fnvStep acc (c.toNat % 256))
    ((14695981039346656037 ^^^ seed) % 18446744073709551616) : Nat)

/-- A fixed process hash used to instantiate witnesses. -/
def zeroHash : String → Int := fun _ => 0

/-- `TensorBuilder._build_roster_info_tensor` (9 features).  Slots 3..5 are
written only when `draft_info` is a dict (`isinstance` guard in the
source); otherwise they keep their zero initialisation. -/
def build_roster_info_tensor (phash : String → Int)
    (pd : List (String × Val)) : List Rat :=
  [((categorical_code phash (pyStr (dGet pd "pfr_id" (Val.str "unknown"))) 1000000 : Nat) : Rat),
   position_to_num (dGet pd "position" (Val.str "")),
   safe_float (dGet pd "roster_tier" (Val.int 1)) 0] ++
  (match dGet pd "draft_info" (Val.dict []) with
   | Val.dict di =>
     [((categorical_code phash (pyStr (dGet di "team" (Val.str ""))) 100 : Nat) : Rat),
      safe_float (dGet di "year" (Val.int 0)) 0,
      safe_float (dGet di "pick" (Val.int 0)) 0]
   | _ => [0, 0, 0]) ++
  [safe_float (dGet pd "roster_season" (Val.int 2024)) 0,
   ((categorical_code phash (pyStr (dGet pd "current_team" (Val.str ""))) 100 : Nat) : Rat),
   safe_float (dGet pd "age" (Val.int 25)) 0]

/-- Payload of `TensorBuilder._build_combine_tensor` (13 features; indices
10..12 are never written and stay zero). -/
def combineFields (d : List (String × Val)) : List Rat :=
  [safe_float (dGet d "year" (Val.int 0)) 0,
   position_to_num (dGet d "position" (Val.str "")),
   safe_float (dGet d "height" (Val.int 0)) 0,
   safe_float (dGet d "weight" (Val.int 0)) 0,
   safe_float (dGet d "forty_yard" (Val.int 0)) 0,
   safe_float (dGet d "bench" (Val.int 0)) 0,
   safe_float (dGet d "broad_jump" (Val.int 0)) 0,
   safe_float (dGet d "shuttle" (Val.int 0)) 0,
   safe_float (dGet d "three_cone" (Val.int 0)) 0,
   safe_float (dGet d "vertical" (Val.int 0)) 0] ++
  List.replicate 3 0

/-- `TensorBuilder._build_combine_tensor`: raises unless its argument is a
dict. -/
def build_combine_tensor (v : Val) : Except String (List Rat) := do
  let d ← requireDict v
  pure (combineFields d)

/-- Payload of `TensorBuilder._build_college_tensor` (64 features; the
section sums written by the source cover indices 0..62, index 63 stays
zero). -/
def collegeFields (d passing rushing receiving defense kicking team opp :
    List (String × Val)) : List Rat :=
  [safe_float (dGet d "seasons" (Val.int 0)) 0,
   safe_float (dGet d "first_season_school" (Val.int 0)) 0,
   safe_float (dGet d "last_season_school" (Val.int 0)) 0,
   safe_float (dGet d "first_school_seasons" (Val.int 0)) 0,
   safe_float (dGet d "last_school_seasons" (Val.int 0)) 0] ++
  [safe_float (dGet passing "completions" (Val.int 0)) 0,
   safe_float (dGet passing "attempts" (Val.int 0)) 0,
   safe_float (dGet passing "yards" (Val.int 0)) 0,
   safe_float (dGet passing "touchdowns" (Val.int 0)) 0,
   safe_float (dGet passing "interceptions" (Val.int 0)) 0] ++
  [safe_float (dGet rushing "attempts" (Val.int 0)) 0,
   safe_float (dGet rushing "yards" (Val.int 0)) 0,
   safe_float (dGet rushing "touchdowns" (Val.int 0)) 0] ++
  [safe_float (dGet receiving "receptions" (Val.int 0)) 0,
   safe_float (dGet receiving "yards" (Val.int 0)) 0,
   safe_float (dGet receiving "touchdowns" (Val.int 0)) 0] ++
  [safe_float (dGet defense "tackles" (Val.int 0)) 0,
   safe_float (dGet defense "sacks" (Val.int 0)) 0,
   safe_float (dGet defense "interceptions" (Val.int 0)) 0,
   safe_float (dGet defense "int_yards" (Val.int 0)) 0,
   safe_float (dGet defense "int_td" (Val.int 0)) 0,
   safe_float (dGet defense "pd" (Val.int 0)) 0,
   safe_float (dGet defense "fr" (Val.int 0)) 0,
   safe_float (dGet defense "fr_yards" (Val.int 0)) 0,
   safe_float (dGet defense "ff" (Val.int 0)) 0,
   safe_float (dGet defense "tfl" (Val.int 0)) 0,
   safe_float (dGet defense "qb_hits" (Val.int 0)) 0] ++
  [safe_float (dGet kicking "fgm" (Val.int 0)) 0,
   safe_float (dGet kicking "fga" (Val.int 0)) 0,
   safe_float (dGet kicking "xpm" (Val.int 0)) 0,
   safe_float (dGet kicking "xpa" (Val.int 0)) 0,
   safe_float (dGet kicking "punts" (Val.int 0)) 0,
   safe_float (dGet kicking "punt_yards" (Val.int 0)) 0] ++
  [safe_float (dGet team "pass_completions" (Val.int 0)) 0,
   safe_float (dGet team "pass_attempts" (Val.int 0)) 0,
   safe_float (dGet team "pass_yards" (Val.int 0)) 0,
   safe_float (dGet team "pass_td" (Val.int 0)) 0,
   safe_float (dGet team "rush_attempts" (Val.int 0)) 0,
   safe_float (dGet team "rush_yards" (Val.int 0)) 0,
   safe_float (dGet team "rush_td" (Val.int 0)) 0,
   safe_float (dGet team "total_plays" (Val.int 0)) 0,
   safe_float (dGet team "pass_1d" (Val.int 0)) 0,
   safe_float (dGet team "rush_1d" (Val.int 0)) 0,
   safe_float (dGet team "pen_1d" (Val.int 0)) 0,
   safe_float (dGet team "penalties" (Val.int 0)) 0,
   safe_float (dGet team "pen_yards" (Val.int 0)) 0,
   safe_float (dGet team "fumbles" (Val.int 0)) 0,
   safe_float (dGet team "interceptions" (Val.int 0)) 0] ++
  [safe_float (dGet opp "pass_completions" (Val.int 0)) 0,
   safe_float (dGet opp "pass_attempts" (Val.int 0)) 0,
   safe_float (dGet opp "pass_yards" (Val.int 0)) 0,
   safe_float (dGet opp "pass_td" (Val.int 0)) 0,
   safe_float (dGet opp "rush_attempts" (Val.int 0)) 0,
   safe_float (dGet opp "rush_yards" (Val.int 0)) 0,
   safe_float (dGet opp "rush_td" (Val.int 0)) 0,
   safe_float (dGet opp "total_plays" (Val.int 0)) 0,
   safe_float (dGet opp "pass_1d" (Val.int 0)) 0,
   safe_float (dGet opp "rush_1d" (Val.int 0)) 0,
   safe_float (dGet opp "pen_1d" (Val.int 0)) 0,
   safe_float (dGet opp "penalties" (Val.int 0)) 0,
   safe_float (dGet opp "pen_yards" (Val.int 0)) 0,
   safe_float (dGet opp "fumbles" (Val.int 0)) 0,
   safe_float (dGet opp "interceptions" (Val.int 0)) 0] ++
  [0]

/-- `TensorBuilder._build_college_tensor`: each nested sub-mapping must be
a dict or the attribute access on it raises. -/
def build_college_tensor (v : Val) : Except String (List Rat) := do
  let d ← requireDict v
  let passing ← subDict d "passing"
  let rushing ← subDict d "rushing"
  let receiving ← subDict d "receiving"
  let defense ← subDict d "defense"
  let kicking ← subDict d "kicking"
  let team ← subDict d "team"
  let opp ← subDict d "opp"
  pure (collegeFields d passing rushing receiving defense kicking team opp)

/-- Payload of `TensorBuilder._build_nfl_career_tensor` (116 features; the
source writes indices 0..84, the remaining 31 stay zero). -/
def nflFields (d passing rushing receiving defense kicking teamPerf :
    List (String × Val)) : List Rat :=
  [safe_float (dGet d "seasons_played" (Val.int 0)) 0,
   safe_float (dGet d "games_played" (Val.int 0)) 0,
   safe_float (dGet d "games_started" (Val.int 0)) 0] ++
  [safe_float (dGet passing "record" (Val.int 0)) 0,
   safe_float (dGet passing "completions" (Val.int 0)) 0,
   safe_float (dGet passing "attempts" (Val.int 0)) 0,
   safe_float (dGet passing "yards" (Val.int 0)) 0,
   safe_float (dGet passing "touchdowns" (Val.int 0)) 0,
   safe_float (dGet passing "interceptions" (Val.int 0)) 0,
   safe_float (dGet passing "first_downs" (Val.int 0)) 0,
   safe_float (dGet passing "longest" (Val.int 0)) 0,
   safe_float (dGet passing "sacked" (Val.int 0)) 0,
   safe_float (dGet passing "4qc" (Val.int 0)) 0,
   safe_float (dGet passing "gwd" (Val.int 0)) 0] ++
  [safe_float (dGet rushing "attempts" (Val.int 0)) 0,
   safe_float (dGet rushing "yards" (Val.int 0)) 0,
   safe_float (dGet rushing "touchdowns" (Val.int 0)) 0,
   safe_float (dGet rushing "first_downs" (Val.int 0)) 0,
   safe_float (dGet rushing "longest" (Val.int 0)) 0] ++
  [safe_float (dGet receiving "targets" (Val.int 0)) 0,
   safe_float (dGet receiving "receptions" (Val.int 0)) 0,
   safe_float (dGet receiving "yards" (Val.int 0)) 0,
   safe_float (dGet receiving "touchdowns" (Val.int 0)) 0,
   safe_float (dGet receiving "first_downs" (Val.int 0)) 0,
   safe_float (dGet receiving "longest" (Val.int 0)) 0] ++
  [safe_float (dGet defense "interceptions" (Val.int 0)) 0,
   safe_float (dGet defense "int_yards" (Val.int 0)) 0,
   safe_float (dGet defense "int_td" (Val.int 0)) 0,
   safe_float (dGet defense "int_longest" (Val.int 0)) 0,
   safe_float (dGet defense "pd" (Val.int 0)) 0,
   safe_float (dGet defense "ff" (Val.int 0)) 0,
   safe_float (dGet defense "fumbles" (Val.int 0)) 0,
   safe_float (dGet defense "fr" (Val.int 0)) 0,
   safe_float (dGet defense "fr_yards" (Val.int 0)) 0,
   safe_float (dGet defense "fr_td" (Val.int 0)) 0,
   safe_float (dGet defense "sacks" (Val.int 0)) 0,
   safe_float (dGet defense "solo_tackles" (Val.int 0)) 0,
   safe_float (dGet defense "assisted_tackles" (Val.int 0)) 0,
   safe_float (dGet defense "tfl" (Val.int 0)) 0,
   safe_float (dGet defense "qb_hits" (Val.int 0)) 0] ++
  [safe_float (dGet kicking "fga_0_19" (Val.int 0)) 0,
   safe_float (dGet kicking "fgm_0_19" (Val.int 0)) 0,
   safe_float (dGet kicking "fga_20_29" (Val.int 0)) 0,
   safe_float (dGet kicking "fgm_20_29" (Val.int 0)) 0,
   safe_float (dGet kicking "fga_30_39" (Val.int 0)) 0,
   safe_float (dGet kicking "fgm_30_39" (Val.int 0)) 0,
   safe_float (dGet kicking "fga_40_49" (Val.int 0)) 0,
   safe_float (dGet kicking "fgm_40_49" (Val.int 0)) 0,
   safe_float (dGet kicking "fga_50_plus" (Val.int 0)) 0,
   safe_float (dGet kicking "fgm_50_plus" (Val.int 0)) 0,
   safe_float (dGet kicking "longest" (Val.int 0)) 0,
   safe_float (dGet kicking "xpa" (Val.int 0)) 0,
   safe_float (dGet kicking "xpm" (Val.int 0)) 0,
   safe_float (dGet kicking "punts" (Val.int 0)) 0,
   safe_float (dGet kicking "punt_yards" (Val.int 0)) 0] ++
  [safe_float (dGet teamPerf "off_points" (Val.int 0)) 0,
   safe_float (dGet teamPerf "off_yards" (Val.int 0)) 0,
   safe_float (dGet teamPerf "off_plays" (Val.int 0)) 0,
   safe_float (dGet teamPerf "off_turnovers" (Val.int 0)) 0,
   safe_float (dGet teamPerf "off_fumbles" (Val.int 0)) 0,
   safe_float (dGet teamPerf "off_1d" (Val.int 0)) 0,
   safe_float (dGet teamPerf "pass_cmp" (Val.int 0)) 0,
   safe_float (dGet teamPerf "pass_att" (Val.int 0)) 0,
   safe_float (dGet teamPerf "pass_yds" (Val.int 0)) 0,
   safe_float (dGet teamPerf "pass_td" (Val.int 0)) 0,
   safe_float (dGet teamPerf "rush_att" (Val.int 0)) 0,
   safe_float (dGet teamPerf "rush_yds" (Val.int 0)) 0,
   safe_float (dGet teamPerf "rush_td" (Val.int 0)) 0,
   safe_float (dGet teamPerf "penalties" (Val.int 0)) 0,
   safe_float (dGet teamPerf "pen_yards" (Val.int 0)) 0,
   safe_float (dGet teamPerf "def_points" (Val.int 0)) 0,
   safe_float (dGet teamPerf "def_yards" (Val.int 0)) 0,
   safe_float (dGet teamPerf "def_plays" (Val.int 0)) 0,
   safe_float (dGet teamPerf "def_turnovers" (Val.int 0)) 0,
   safe_float (dGet teamPerf "def_fumbles" (Val.int 0)) 0,
   safe_float (dGet teamPerf "def_1d" (Val.int 0)) 0,
   safe_float (dGet teamPerf "def_pass_cmp" (Val.int 0)) 0,
   safe_float (dGet teamPerf "def_pass_att" (Val.int 0)) 0,
   safe_float (dGet teamPerf "def_pass_yds" (Val.int 0)) 0,
   safe_float (dGet teamPerf "def_pass_td" (Val.int 0)) 0,
   safe_float (dGet teamPerf "def_rush_att" (Val.int 0)) 0,
   safe_float (dGet teamPerf "def_rush_yds" (Val.int 0)) 0,
   safe_float (dGet teamPerf "def_rush_td" (Val.int 0)) 0,
   safe_float (dGet teamPerf "opp_penalties" (Val.int 0)) 0,
   safe_float (dGet teamPerf "opp_pen_yards" (Val.int 0)) 0] ++
  List.replicate 31 0

/-- `TensorBuilder._build_nfl_career_tensor`. -/
def build_nfl_career_tensor (v : Val) : Except String (List Rat) := do
  let d ← requireDict v
  let passing ← subDict d "passing"
  let rushing ← subDict d "rushing"
  let receiving ← subDict d "receiving"
  let defense ← subDict d "defense"
  let kicking ← subDict d "kicking"
  let teamPerf ← subDict d "team_performance"
  pure (nflFields d passing rushing receiving defense kicking teamPerf)

/-- Payload of `TensorBuilder._build_season_tensor`: team code (unless
`exclude_team`), games played/started, and a zero-filled remainder
(placeholder in the source). -/
def seasonFields (phash : String → Int) (d : List (String × Val))
    (excludeTeam : Bool) : List Rat :=
  (if excludeTeam then []
   else [((categorical_code phash (pyStr (dGet d "team" (Val.str ""))) 100 : Nat) : Rat)]) ++
  [safe_float (dGet d "games_played" (Val.int 0)) 0,
   safe_float (dGet d "games_started" (Val.int 0)) 0] ++
  List.replicate 114 0

/-- `TensorBuilder._build_season_tensor` (117 features, or 116 with
`exclude_team=True`). -/
def build_season_tensor (phash : String → Int) (v : Val)
    (excludeTeam : Bool) : Except String (List Rat) := do
  let d ← requireDict v
  pure (seasonFields phash d excludeTeam)

/-- The `try` body of `TensorBuilder.build_player_tensor`: the eight
sections in their fixed order, plus the trailing slot of the 670-wide
zero-initialised array that no section writes (9+13+64+116+117+117+117+116
= 669). -/
def build_player_tensor_body (phash : String → Int) (v : Val) :
    Except String (List Rat) := do
  let pd ← requireDict v
  let ri := build_roster_info_tensor phash pd
  let combine ← build_combine_tensor (dGet pd "combine_stats" (Val.dict []))
  let college ← build_college_tensor (dGet pd "college_stats" (Val.dict []))
  let nfl ← build_nfl_career_tensor (dGet pd "nfl_career_stats" (Val.dict []))
  let sd ← requireDict (dGet pd "seasonal_data" (Val.dict []))
  let lastSeason ← build_season_tensor phash (dGet sd "last_season" (Val.dict [])) false
  let worstSeason ← build_season_tensor phash (dGet sd "worst_season" (Val.dict [])) false
  let bestSeason ← build_season_tensor phash (dGet sd "best_season" (Val.dict [])) false
  let avgSeason ← build_season_tensor phash (dGet sd "average_season" (Val.dict [])) true
  pure ((ri ++ combine ++ college ++ nfl ++
         lastSeason ++ worstSeason ++ bestSeason ++ avgSeason) ++ [0])

/-- `TensorBuilder.build_player_tensor`: the catch-all `except` degrades
any internal failure to the all-zero 670-wide vector. -/
def build_player_tensor (phash : String → Int) (v : Val) : List Rat :=
  match build_player_tensor_body phash v with
  | .ok t => t
  | .error _ => List.replicate 670 0

/-- `TensorBuilder.build_roster_tensor`: a 64×670 zero grid whose first
`min(len(input), 64)` rows are the player encodings of the first 64
records, flattened row-major. -/
def build_roster_tensor (phash : String → Int) (players : List Val) :
    List Rat :=
  ((players.take 64).map (build_player_tensor phash) ++
    List.replicate (64 - (players.take 64).length)
      (List.replicate 670 (0 : Rat))).flatten

/-- The flag `1.0 if kw in str(text).lower() else 0.0` of
`_build_game_info_tensor`. -/
def keywordFlag (text : Val) (kw : String) : Rat :=
  if pyContains (pyLower (pyStr text)) kw then 1 else 0

/-- Payload of `TensorBuilder._build_game_info_tensor` (50 features; the
source writes indices 0..17, the remaining 32 stay zero). -/
def gameInfoFields (d : List (String × Val)) : List Rat :=
  [safe_float (dGet d "temperature" (Val.int 70)) 0,
   if pyTruthy (dGet d "dome" (Val.bool false)) then 1 else 0,
   safe_float (dGet d "wind_speed" (Val.int 0)) 0,
   safe_float (dGet d "week" (Val.int 0)) 0,
   safe_float (dGet d "season" (Val.int 2024)) 0,
   safe_float (dGet d "home_wins" (Val.int 0)) 0,
   safe_float (dGet d "home_losses" (Val.int 0)) 0,
   safe_float (dGet d "away_wins" (Val.int 0)) 0,
   safe_float (dGet d "away_losses" (Val.int 0)) 0,
   if pyTruthy (dGet d "playoff" (Val.bool false)) then 1 else 0,
   keywordFlag (dGet d "weather" (Val.str "")) "clear",
   keywordFlag (dGet d "weather" (Val.str "")) "cloudy",
   keywordFlag (dGet d "weather" (Val.str "")) "rain",
   keywordFlag (dGet d "weather" (Val.str "")) "snow",
   keywordFlag (dGet d "weather" (Val.str "")) "fog",
   keywordFlag (dGet d "surface" (Val.str "")) "grass",
   keywordFlag (dGet d "surface" (Val.str "")) "turf",
   safe_float (dGet d "start_time_hour" (Val.int 13)) 0] ++
  List.replicate 32 0

/-- `TensorBuilder._build_game_info_tensor`: raises unless `game_info` is
a dict. -/
def build_game_info_body (v : Val) : Except String (List Rat) := do
  let d ← requireDict v
  pure (gameInfoFields d)

/-- `TensorBuilder.build_game_tensor`: home roster ++ away roster ++ game
info; the catch-all `except` degrades any internal failure to the all-zero
85810-wide vector. -/
def build_game_tensor (phash : String → Int) (home away : List Val)
    (gameInfo : Val) : List Rat :=
  match build_game_info_body gameInfo with
  | .ok g => build_roster_tensor phash home ++ build_roster_tensor phash away ++ g
  | .error _ => List.replicate 85810 0

/-- The possession-relative signed yard line of
`_build_play_state_tensor`. -/
def yardLineSigned (d : List (String × Val)) : Rat :=
  if pyEqInt (dGet d "possession" (Val.int 0)) 1 then
    safe_float (dGet d "yard_line" (Val.int 50)) 0
  else
    100 - safe_float (dGet d "yard_line" (Val.int 50)) 0

/-- Payload of `TensorBuilder._build_play_state_tensor` (20 features; the
source writes indices 0..13, the remaining 6 stay zero). -/
def playStateFields (d : List (String × Val)) : List Rat :=
  [safe_float (dGet d "quarter" (Val.int 1)) 0,
   safe_float (dGet d "time_remaining" (Val.int 900)) 0,
   safe_float (dGet d "down" (Val.int 1)) 0,
   safe_float (dGet d "yards_to_go" (Val.int 10)) 0,
   safe_float (dGet d "yard_line" (Val.int 50)) 0,
   safe_float (dGet d "home_score" (Val.int 0)) 0,
   safe_float (dGet d "away_score" (Val.int 0)) 0,
   safe_float (dGet d "possession" (Val.int 0)) 0,
   if safe_float (dGet d "yard_line" (Val.int 50)) 0 ≤ 20 ∨
      80 ≤ safe_float (dGet d "yard_line" (Val.int 50)) 0 then 1 else 0,
   if yardLineSigned d ≤ safe_float (dGet d "yards_to_go" (Val.int 10)) 0
     then 1 else 0,
   safe_float (dGet d "home_score" (Val.int 0)) 0 -
     safe_float (dGet d "away_score" (Val.int 0)) 0,
   if pyTruthy (dGet d "two_minute_warning" (Val.bool false)) then 1 else 0,
   safe_float (dGet d "timeouts_home" (Val.int 3)) 0,
   safe_float (dGet d "timeouts_away" (Val.int 3)) 0] ++
  List.replicate 6 0

/-- `TensorBuilder._build_play_state_tensor`: raises unless `play_state`
is a dict. -/
def build_play_state_body (v : Val) : Except String (List Rat) := do
  let d ← requireDict v
  pure (playStateFields d)

/-- `TensorBuilder.build_play_tensor`: game tensor ++ play state; the
catch-all `except` degrades any internal failure to a zero vector of
length `len(game_tensor) + 20`. -/
def build_play_tensor (gameTensor : List Rat) (playState : Val) : List Rat :=
  match build_play_state_body playState with
  | .ok t => gameTensor ++ t
  | .error _ => List.replicate (gameTensor.length + 20) 0

/-! ### Helper lemmas -/

lemma except_bind_ok {α β : Type} (a : α) (f : α → Except String β) :
    (Except.ok a >>= f) = f a := rfl

lemma except_bind_error {α β : Type} (e : String) (f : α → Except String β) :
    ((Except.error e : Except String α) >>= f) = Except.error e := rfl

lemma dGet_of_lookup_none {d : List (String × Val)} {k : String}
    (h : List.lookup k d = Option.none) (dflt : Val) : dGet d k dflt = dflt := by
  simp [dGet, h]

lemma roster_info_length (phash : String → Int) (pd : List (String × Val)) :
    (build_roster_info_tensor phash pd).length = 9 := by
  unfold build_roster_info_tensor
  rcases dGet pd "draft_info" (Val.dict []) <;> simp

lemma combine_ok_len {v : Val} {t : List Rat}
    (h : build_combine_tensor v = .ok t) : t.length = 13 := by
  rcases v <;>
    simp only [build_combine_tensor, requireDict, except_bind_ok,
      except_bind_error, pure, Except.pure, reduceCtorEq, Except.ok.injEq] at h
  simp [← h, combineFields]

lemma college_ok_len {v : Val} {t : List Rat}
    (h : build_college_tensor v = .ok t) : t.length = 64 := by
  unfold build_college_tensor at h
  rcases v <;>
    simp only [requireDict, except_bind_ok, except_bind_error, reduceCtorEq] at h
  rcases h1 : subDict _ "passing" with e | passing <;> rw [h1] at h <;>
    simp only [except_bind_ok, except_bind_error, reduceCtorEq] at h
  rcases h2 : subDict _ "rushing" with e | rushing <;> rw [h2] at h <;>
    simp only [except_bind_ok, except_bind_error, reduceCtorEq] at h
  rcases h3 : subDict _ "receiving" with e | receiving <;> rw [h3] at h <;>
    simp only [except_bind_ok, except_bind_error, reduceCtorEq] at h
  rcases h4 : subDict _ "defense" with e | defense <;> rw [h4] at h <;>
    simp only [except_bind_ok, except_bind_error, reduceCtorEq] at h
  rcases h5 : subDict _ "kicking" with e | kicking <;> rw [h5] at h <;>
    simp only [except_bind_ok, except_bind_error, reduceCtorEq] at h
  rcases h6 : subDict _ "team" with e | team <;> rw [h6] at h <;>
    simp only [except_bind_ok, except_bind_error, reduceCtorEq] at h
  rcases h7 : subDict _ "opp" with e | opp <;> rw [h7] at h <;>
    simp only [except_bind_ok, except_bind_error, reduceCtorEq, pure,
      Except.pure, Except.ok.injEq] at h
  simp [← h, collegeFields]

lemma nfl_ok_len {v : Val} {t : List Rat}
    (h : build_nfl_career_tensor v = .ok t) : t.length = 116 := by
  unfold build_nfl_career_tensor at h
  rcases v <;>
    simp only [requireDict, except_bind_ok, except_bind_error, reduceCtorEq] at h
  rcases h1 : subDict _ "passing" with e | passing <;> rw [h1] at h <;>
    simp only [except_bind_ok, except_bind_error, reduceCtorEq] at h
  rcases h2 : subDict _ "rushing" with e | rushing <;> rw [h2] at h <;>
    simp only [except_bind_ok, except_bind_error, reduceCtorEq] at h
  rcases h3 : subDict _ "receiving" with e | receiving <;> rw [h3] at h <;>
    simp only [except_bind_ok, except_bind_error, reduceCtorEq] at h
  rcases h4 : subDict _ "defense" with e | defense <;> rw [h4] at h <;>
    simp only [except_bind_ok, except_bind_error, reduceCtorEq] at h
  rcases h5 : subDict _ "kicking" with e | kicking <;> rw [h5] at h <;>
    simp only [except_bind_ok, except_bind_error, reduceCtorEq] at h
  rcases h6 : subDict _ "team_performance" with e | teamPerf <;> rw [h6] at h <;>
    simp only [except_bind_ok, except_bind_error, reduceCtorEq, pure,
      Except.pure, Except.ok.injEq] at h
  simp [← h, nflFields]

lemma season_ok_len {phash : String → Int} {v : Val} {b : Bool} {t : List Rat}
    (h : build_season_tensor phash v b = .ok t) :
    t.length = if b then 116 else 117 := by
  rcases v <;>
    simp only [build_season_tensor, requireDict, except_bind_ok,
      except_bind_error, pure, Except.pure, reduceCtorEq, Except.ok.injEq] at h
  rcases b <;> simp [← h, seasonFields]

lemma player_body_shape (phash : String → Int) (v : Val) :
    (∃ e, build_player_tensor_body phash v = .error e) ∨
    (∃ l : List Rat, build_player_tensor_body phash v = .ok (l ++ [0]) ∧
      l.length = 669) := by
  unfold build_player_tensor_body
  rcases hv : requireDict v with e | pd
  · exact Or.inl ⟨e, rfl⟩
  simp only [except_bind_ok]
  rcases hc : build_combine_tensor (dGet pd "combine_stats" (Val.dict []))
      with e | combine
  · exact Or.inl ⟨e, rfl⟩
  simp only [except_bind_ok]
  rcases hcol : build_college_tensor (dGet pd "college_stats" (Val.dict []))
      with e | college
  · exact Or.inl ⟨e, rfl⟩
  simp only [except_bind_ok]
  rcases hn : build_nfl_career_tensor (dGet pd "nfl_career_stats" (Val.dict []))
      with e | nfl
  · exact Or.inl ⟨e, rfl⟩
  simp only [except_bind_ok]
  rcases hsd : requireDict (dGet pd "seasonal_data" (Val.dict [])) with e | sd
  · exact Or.inl ⟨e, rfl⟩
  simp only [except_bind_ok]
  rcases hl : build_season_tensor phash (dGet sd "last_season" (Val.dict [])) false
      with e | lastSeason
  · exact Or.inl ⟨e, rfl⟩
  simp only [except_bind_ok]
  rcases hw : build_season_tensor phash (dGet sd "worst_season" (Val.dict [])) false
      with e | worstSeason
  · exact Or.inl ⟨e, rfl⟩
  simp only [except_bind_ok]
  rcases hb : build_season_tensor phash (dGet sd "best_season" (Val.dict [])) false
      with e | bestSeason
  · exact Or.inl ⟨e, rfl⟩
  simp only [except_bind_ok]
  rcases ha : build_season_tensor phash (dGet sd "average_season" (Val.dict [])) true
      with e | avgSeason
  · exact Or.inl ⟨e, rfl⟩
  simp only [except_bind_ok]
  refine Or.inr ⟨build_roster_info_tensor phash pd ++ combine ++ college ++ nfl ++
    lastSeason ++ worstSeason ++ bestSeason ++ avgSeason, rfl, ?_⟩
  have h1 := roster_info_length phash pd
  have h2 := combine_ok_len hc
  have h3 := college_ok_len hcol
  have h4 := nfl_ok_len hn
  have h5 : lastSeason.length = 117 := by simpa using season_ok_len hl
  have h6 : worstSeason.length = 117 := by simpa using season_ok_len hw
  have h7 : bestSeason.length = 117 := by simpa using season_ok_len hb
  have h8 : avgSeason.length = 116 := by simpa using season_ok_len ha
  simp only [List.length_append]
  omega

lemma player_tensor_length (phash : String → Int) (v : Val) :
    (build_player_tensor phash v).length = 670 := by
  unfold build_player_tensor
  rcases player_body_shape phash v with ⟨e, he⟩ | ⟨l, hl, hlen⟩
  · rw [he]
    exact List.length_replicate 670 0
  · rw [hl]
    simp only [List.length_append, hlen, List.length_cons, List.length_nil]

lemma flatten_length_of_forall {rows : List (List Rat)} {w : Nat}
    (hw : ∀ r ∈ rows, r.length = w) : rows.flatten.length = rows.length * w := by
  induction rows with
  | nil => simp
  | cons r rs ih =>
    simp only [List.flatten_cons, List.length_append, List.length_cons]
    rw [hw r (by simp), ih (fun r hr => hw r (by simp [hr]))]
    ring

lemma flatten_block {rows : List (List Rat)} {w : Nat}
    (hw : ∀ r ∈ rows, r.length = w) :
    ∀ {i : Nat}, i < rows.length →
      (rows.flatten.drop (w * i)).take w = rows.getD i [] := by
  induction rows with
  | nil => intro i hi; simp at hi
  | cons r rs ih =>
    intro i hi
    have hr : r.length = w := hw r (by simp)
    cases i with
    | zero =>
      simp only [Nat.mul_zero, List.drop_zero, List.flatten_cons,
        List.getD_cons_zero]
      rw [← hr, List.take_left]
    | succ j =>
      simp only [List.flatten_cons, List.getD_cons_succ]
      have hidx : w * (j + 1) = r.length + w * j := by rw [hr]; ring
      rw [hidx, List.drop_append]
      exact ih (fun r hr' => hw r (by simp [hr'])) (by simpa using hi)

lemma roster_rows_length (phash : String → Int) (players : List Val) :
    ((players.take 64).map (build_player_tensor phash) ++
      List.replicate (64 - (players.take 64).length)
        (List.replicate 670 (0 : Rat))).length = 64 := by
  have : (players.take 64).length ≤ 64 := List.length_take_le 64 players
  simp only [List.length_append, List.length_map, List.length_replicate]
  omega

lemma roster_rows_width (phash : String → Int) (players : List Val) :
    ∀ r ∈ (players.take 64).map (build_player_tensor phash) ++
      List.replicate (64 - (players.take 64).length)
        (List.replicate 670 (0 : Rat)), r.length = 670 := by
  intro r hr
  rcases List.mem_append.mp hr with hr | hr
  · rcases List.mem_map.mp hr with ⟨v, _, rfl⟩
    exact player_tensor_length phash v
  · rw [List.eq_of_mem_replicate hr, List.length_replicate]

lemma roster_tensor_length (phash : String → Int) (players : List Val) :
    (build_roster_tensor phash players).length = 42880 := by
  unfold build_roster_tensor
  rw [flatten_length_of_forall (roster_rows_width phash players),
    roster_rows_length phash players]

lemma game_info_fields_length (d : List (String × Val)) :
    (gameInfoFields d).length = 50 := by
  simp [gameInfoFields]

lemma play_state_fields_length (d : List (String × Val)) :
    (playStateFields d).length = 20 := by
  simp [playStateFields]

lemma getD_append_left {α : Type} {l₁ l₂ : List α} {i : Nat}
    (h : i < l₁.length) (d : α) : (l₁ ++ l₂).getD i d = l₁.getD i d := by
  simp [List.getD_eq_getElem?_getD, List.getElem?_append, h]

lemma getD_append_right {α : Type} {l₁ l₂ : List α} {i : Nat}
    (h : l₁.length ≤ i) (d : α) :
    (l₁ ++ l₂).getD i d = l₂.getD (i - l₁.length) d := by
  simp [List.getD_eq_getElem?_getD, List.getElem?_append, Nat.not_lt.mpr h]

lemma absent_scalar_zero {d : List (String × Val)} {k : String}
    (h : List.lookup k d = Option.none) :
    safe_float (dGet d k (Val.int 0)) 0 = 0 := by
  rw [dGet_of_lookup_none h]; decide

/-! ### Claims -/

/-- C1 (code_bug): the spec requires categorical codes to be identical
across processes and runs ("same string → same code, always", unsalted).
The source computes them as `abs(hash(str(x))) % modulus` with CPython's
per-process salted string hash, so two processes with different hash seeds
produce different codes for the same string — here for the identity code
of the default identity string "unknown" (modulus 1,000,000) and for the
persisted RosterInfo identity slot built from it. -/
theorem C1_salted_categorical_code :
    categorical_code (pyStrHash 0) "unknown" 1000000 ≠
      categorical_code (pyStrHash 1) "unknown" 1000000 ∧
    (build_roster_info_tensor (pyStrHash 0) []).getD 0 0 ≠
      (build_roster_info_tensor (pyStrHash 1) []).getD 0 0 := by
  decide

/-- C2 (counterexample): the claim says a compositor given a wrong-length
input vector raises rather than returning a value.  `build_play_tensor`
given a length-3 game vector (the required width is 85,810) performs no
shape check: it returns the 23-element concatenation of the input with the
default play-state block. -/
theorem C2_counterexample :
    build_play_tensor (List.replicate 3 0) (Val.dict []) =
      List.replicate 3 0 ++ playStateFields [] ∧
    (build_play_tensor (List.replicate 3 0) (Val.dict [])).length = 23 := by
  constructor
  · rfl
  · rw [show build_play_tensor (List.replicate 3 0) (Val.dict []) =
        List.replicate 3 0 ++ playStateFields [] from rfl]
    simp [play_state_fields_length]

/-- C2 (amended): the compositors never raise; `build_play_tensor`
concatenates any-length game vector with the 20-wide play-state block
(returning length `len(game_tensor) + 20`, with no shape validation), and
`build_game_tensor` always returns a well-shaped 85,810-length vector
(zeros when the game-info record is structurally malformed). -/
theorem C2_amended :
    (∀ (gameTensor : List Rat) (d : List (String × Val)),
      build_play_tensor gameTensor (Val.dict d) =
        gameTensor ++ playStateFields d) ∧
    (∀ (gameTensor : List Rat) (playState : Val),
      (build_play_tensor gameTensor playState).length =
        gameTensor.length + 20) ∧
    (∀ (phash : String → Int) (home away : List Val) (gameInfo : Val),
      (build_game_tensor phash home away gameInfo).length = 85810) := by
  refine ⟨fun gameTensor d => rfl, fun gameTensor playState => ?_, ?_⟩
  · unfold build_play_tensor
    rcases hps : build_play_state_body playState with e | t
    · simp
    · rcases playState <;>
        simp only [build_play_state_body, requireDict, except_bind_ok,
          except_bind_error, pure, Except.pure, reduceCtorEq,
          Except.ok.injEq] at hps
      simp [← hps, play_state_fields_length]
  · intro phash home away gameInfo
    unfold build_game_tensor
    rcases hgi : build_game_info_body gameInfo with e | g
    · exact List.length_replicate 85810 0
    · rcases gameInfo <;>
        simp only [build_game_info_body, requireDict, except_bind_ok,
          except_bind_error, pure, Except.pure, reduceCtorEq,
          Except.ok.injEq] at hgi
      simp [← hgi, List.length_append, roster_tensor_length,
        game_info_fields_length]

/-- C3 (counterexample): for a player record missing `age`, `roster_tier`
and `roster_season` (the empty record), the corresponding RosterInfo slots
are not 0: they are 1, 2024 and 25. -/
theorem C3_counterexample :
    (build_roster_info_tensor zeroHash []).getD 2 0 = 1 ∧
    (build_roster_info_tensor zeroHash []).getD 6 0 = 2024 ∧
    (build_roster_info_tensor zeroHash []).getD 8 0 = 25 ∧
    (build_roster_info_tensor zeroHash []).getD 2 0 ≠ 0 := by
  decide

/-- C3 (amended): for every player record, every absent scalar stat field
encodes as 0 via the coercion utility's default of 0.0 — field by field
across the draft sub-mapping (year, pick), the Combine section, every
CollegeCareer group, every NFLCareer group, and the games-played /
games-started scalars of all four seasonal sections (the season blocks
enter the player vector at offsets 202, 319, 436 and 553, the other
sections at 9, 22 and 86) — except three top-level scalars whose `.get`
defaults are nonzero: missing `roster_tier` encodes 1 (RosterInfo slot 2),
missing `roster_season` encodes 2024 (slot 6) and missing `age` encodes 25
(slot 8). -/
theorem C3_amended :
    (∀ (phash : String → Int) (d : List (String × Val)),
      List.lookup "roster_tier" d = Option.none →
      List.lookup "roster_season" d = Option.none →
      List.lookup "age" d = Option.none →
      (build_roster_info_tensor phash d).getD 2 0 = 1 ∧
      (build_roster_info_tensor phash d).getD 6 0 = 2024 ∧
      (build_roster_info_tensor phash d).getD 8 0 = 25) ∧
    ((∀ (phash : String → Int) (pd di : List (String × Val)),
        dGet pd "draft_info" (Val.dict []) = Val.dict di →
        List.lookup "year" di = Option.none →
        (build_roster_info_tensor phash pd).getD 4 0 = 0) ∧
     (∀ (phash : String → Int) (pd di : List (String × Val)),
        dGet pd "draft_info" (Val.dict []) = Val.dict di →
        List.lookup "pick" di = Option.none →
        (build_roster_info_tensor phash pd).getD 5 0 = 0)) ∧
    ((∀ cd : List (String × Val), List.lookup "year" cd = Option.none →
        (combineFields cd).getD 0 0 = 0) ∧
     (∀ cd : List (String × Val), List.lookup "height" cd = Option.none →
        (combineFields cd).getD 2 0 = 0) ∧
     (∀ cd : List (String × Val), List.lookup "weight" cd = Option.none →
        (combineFields cd).getD 3 0 = 0) ∧
     (∀ cd : List (String × Val), List.lookup "forty_yard" cd = Option.none →
        (combineFields cd).getD 4 0 = 0) ∧
     (∀ cd : List (String × Val), List.lookup "bench" cd = Option.none →
        (combineFields cd).getD 5 0 = 0) ∧
     (∀ cd : List (String × Val), List.lookup "broad_jump" cd = Option.none →
        (combineFields cd).getD 6 0 = 0) ∧
     (∀ cd : List (String × Val), List.lookup "shuttle" cd = Option.none →
        (combineFields cd).getD 7 0 = 0) ∧
     (∀ cd : List (String × Val), List.lookup "three_cone" cd = Option.none →
        (combineFields cd).getD 8 0 = 0) ∧
     (∀ cd : List (String × Val), List.lookup "vertical" cd = Option.none →
        (combineFields cd).getD 9 0 = 0)) ∧
    ((∀ d passing rushing receiving defense kicking team opp : List (String × Val),
        List.lookup "seasons" d = Option.none →
        (collegeFields d passing rushing receiving defense kicking team opp).getD 0 0 = 0) ∧
     (∀ d passing rushing receiving defense kicking team opp : List (String × Val),
        List.lookup "first_season_school" d = Option.none →
        (collegeFields d passing rushing receiving defense kicking team opp).getD 1 0 = 0) ∧
     (∀ d passing rushing receiving defense kicking team opp : List (String × Val),
        List.lookup "last_season_school" d = Option.none →
        (collegeFields d passing rushing receiving defense kicking team opp).getD 2 0 = 0) ∧
     (∀ d passing rushing receiving defense kicking team opp : List (String × Val),
        List.lookup "first_school_seasons" d = Option.none →
        (collegeFields d passing rushing receiving defense kicking team opp).getD 3 0 = 0) ∧
     (∀ d passing rushing receiving defense kicking team opp : List (String × Val),
        List.lookup "last_school_seasons" d = Option.none →
        (collegeFields d passing rushing receiving defense kicking team opp).getD 4 0 = 0) ∧
     (∀ d passing rushing receiving defense kicking team opp : List (String × Val),
        List.lookup "completions" passing = Option.none →
        (collegeFields d passing rushing receiving defense kicking team opp).getD 5 0 = 0) ∧
     (∀ d passing rushing receiving defense kicking team opp : List (String × Val),
        List.lookup "attempts" passing = Option.none →
        (collegeFields d passing rushing receiving defense kicking team opp).getD 6 0 = 0) ∧
     (∀ d passing rushing receiving defense kicking team opp : List (String × Val),
        List.lookup "yards" passing = Option.none →
        (collegeFields d passing rushing receiving defense kicking team opp).getD 7 0 = 0) ∧
     (∀ d passing rushing receiving defense kicking team opp : List (String × Val),
        List.lookup "touchdowns" passing = Option.none →
        (collegeFields d passing rushing receiving defense kicking team opp).getD 8 0 = 0) ∧
     (∀ d passing rushing receiving defense kicking team opp : List (String × Val),
        List.lookup "interceptions" passing = Option.none →
        (collegeFields d passing rushing receiving defense kicking team opp).getD 9 0 = 0) ∧
     (∀ d passing rushing receiving defense kicking team opp : List (String × Val),
        List.lookup "attempts" rushing = Option.none →
        (collegeFields d passing rushing receiving defense kicking team opp).getD 10 0 = 0) ∧
     (∀ d passing rushing receiving defense kicking team opp : List (String × Val),
        List.lookup "yards" rushing = Option.none →
        (collegeFields d passing rushing receiving defense kicking team opp).getD 11 0 = 0) ∧
     (∀ d passing rushing receiving defense kicking team opp : List (String × Val),
        List.lookup "touchdowns" rushing = Option.none →
        (collegeFields d passing rushing receiving defense kicking team opp).getD 12 0 = 0) ∧
     (∀ d passing rushing receiving defense kicking team opp : List (String × Val),
        List.lookup "receptions" receiving = Option.none →
        (collegeFields d passing rushing receiving defense kicking team opp).getD 13 0 = 0) ∧
     (∀ d passing rushing receiving defense kicking team opp : List (String × Val),
        List.lookup "yards" receiving = Option.none →
        (collegeFields d passing rushing receiving defense kicking team opp).getD 14 0 = 0) ∧
     (∀ d passing rushing receiving defense kicking team opp : List (String × Val),
        List.lookup "touchdowns" receiving = Option.none →
        (collegeFields d passing rushing receiving defense kicking team opp).getD 15 0 = 0) ∧
     (∀ d passing rushing receiving defense kicking team opp : List (String × Val),
        List.lookup "tackles" defense = Option.none →
        (collegeFields d passing rushing receiving defense kicking team opp).getD 16 0 = 0) ∧
     (∀ d passing rushing receiving defense kicking team opp : List (String × Val),
        List.lookup "sacks" defense = Option.none →
        (collegeFields d passing rushing receiving defense kicking team opp).getD 17 0 = 0) ∧
     (∀ d passing rushing receiving defense kicking team opp : List (String × Val),
        List.lookup "interceptions" defense = Option.none →
        (collegeFields d passing rushing receiving defense kicking team opp).getD 18 0 = 0) ∧
     (∀ d passing rushing receiving defense kicking team opp : List (String × Val),
        List.lookup "int_yards" defense = Option.none →
        (collegeFields d passing rushing receiving defense kicking team opp).getD 19 0 = 0) ∧
     (∀ d passing rushing receiving defense kicking team opp : List (String × Val),
        List.lookup "int_td" defense = Option.none →
        (collegeFields d passing rushing receiving defense kicking team opp).getD 20 0 = 0) ∧
     (∀ d passing rushing receiving defense kicking team opp : List (String × Val),
        List.lookup "pd" defense = Option.none →
        (collegeFields d passing rushing receiving defense kicking team opp).getD 21 0 = 0) ∧
     (∀ d passing rushing receiving defense kicking team opp : List (String × Val),
        List.lookup "fr" defense = Option.none →
        (collegeFields d passing rushing receiving defense kicking team opp).getD 22 0 = 0) ∧
     (∀ d passing rushing receiving defense kicking team opp : List (String × Val),
        List.lookup "fr_yards" defense = Option.none →
        (collegeFields d passing rushing receiving defense kicking team opp).getD 23 0 = 0) ∧
     (∀ d passing rushing receiving defense kicking team opp : List (String × Val),
        List.lookup "ff" defense = Option.none →
        (collegeFields d passing rushing receiving defense kicking team opp).getD 24 0 = 0) ∧
     (∀ d passing rushing receiving defense kicking team opp : List (String × Val),
        List.lookup "tfl" defense = Option.none →
        (collegeFields d passing rushing receiving defense kicking team opp).getD 25 0 = 0) ∧
     (∀ d passing rushing receiving defense kicking team opp : List (String × Val),
        List.lookup "qb_hits" defense = Option.none →
        (collegeFields d passing rushing receiving defense kicking team opp).getD 26 0 = 0) ∧
     (∀ d passing rushing receiving defense kicking team opp : List (String × Val),
        List.lookup "fgm" kicking = Option.none →
        (collegeFields d passing rushing receiving defense kicking team opp).getD 27 0 = 0) ∧
     (∀ d passing rushing receiving defense kicking team opp : List (String × Val),
        List.lookup "fga" kicking = Option.none →
        (collegeFields d passing rushing receiving defense kicking team opp).getD 28 0 = 0) ∧
     (∀ d passing rushing receiving defense kicking team opp : List (String × Val),
        List.lookup "xpm" kicking = Option.none →
        (collegeFields d passing rushing receiving defense kicking team opp).getD 29 0 = 0) ∧
     (∀ d passing rushing receiving defense kicking team opp : List (String × Val),
        List.lookup "xpa" kicking = Option.none →
        (collegeFields d passing rushing receiving defense kicking team opp).getD 30 0 = 0) ∧
     (∀ d passing rushing receiving defense kicking team opp : List (String × Val),
        List.lookup "punts" kicking = Option.none →
        (collegeFields d passing rushing receiving defense kicking team opp).getD 31 0 = 0) ∧
     (∀ d passing rushing receiving defense kicking team opp : List (String × Val),
        List.lookup "punt_yards" kicking = Option.none →
        (collegeFields d passing rushing receiving defense kicking team opp).getD 32 0 = 0) ∧
     (∀ d passing rushing receiving defense kicking team opp : List (String × Val),
        List.lookup "pass_completions" team = Option.none →
        (collegeFields d passing rushing receiving defense kicking team opp).getD 33 0 = 0) ∧
     (∀ d passing rushing receiving defense kicking team opp : List (String × Val),
        List.lookup "pass_attempts" team = Option.none →
        (collegeFields d passing rushing receiving defense kicking team opp).getD 34 0 = 0) ∧
     (∀ d passing rushing receiving defense kicking team opp : List (String × Val),
        List.lookup "pass_yards" team = Option.none →
        (collegeFields d passing rushing receiving defense kicking team opp).getD 35 0 = 0) ∧
     (∀ d passing rushing receiving defense kicking team opp : List (String × Val),
        List.lookup "pass_td" team = Option.none →
        (collegeFields d passing rushing receiving defense kicking team opp).getD 36 0 = 0) ∧
     (∀ d passing rushing receiving defense kicking team opp : List (String × Val),
        List.lookup "rush_attempts" team = Option.none →
        (collegeFields d passing rushing receiving defense kicking team opp).getD 37 0 = 0) ∧
     (∀ d passing rushing receiving defense kicking team opp : List (String × Val),
        List.lookup "rush_yards" team = Option.none →
        (collegeFields d passing rushing receiving defense kicking team opp).getD 38 0 = 0) ∧
     (∀ d passing rushing receiving defense kicking team opp : List (String × Val),
        List.lookup "rush_td" team = Option.none →
        (collegeFields d passing rushing receiving defense kicking team opp).getD 39 0 = 0) ∧
     (∀ d passing rushing receiving defense kicking team opp : List (String × Val),
        List.lookup "total_plays" team = Option.none →
        (collegeFields d passing rushing receiving defense kicking team opp).getD 40 0 = 0) ∧
     (∀ d passing rushing receiving defense kicking team opp : List (String × Val),
        List.lookup "pass_1d" team = Option.none →
        (collegeFields d passing rushing receiving defense kicking team opp).getD 41 0 = 0) ∧
     (∀ d passing rushing receiving defense kicking team opp : List (String × Val),
        List.lookup "rush_1d" team = Option.none →
        (collegeFields d passing rushing receiving defense kicking team opp).getD 42 0 = 0) ∧
     (∀ d passing rushing receiving defense kicking team opp : List (String × Val),
        List.lookup "pen_1d" team = Option.none →
        (collegeFields d passing rushing receiving defense kicking team opp).getD 43 0 = 0) ∧
     (∀ d passing rushing receiving defense kicking team opp : List (String × Val),
        List.lookup "penalties" team = Option.none →
        (collegeFields d passing rushing receiving defense kicking team opp).getD 44 0 = 0) ∧
     (∀ d passing rushing receiving defense kicking team opp : List (String × Val),
        List.lookup "pen_yards" team = Option.none →
        (collegeFields d passing rushing receiving defense kicking team opp).getD 45 0 = 0) ∧
     (∀ d passing rushing receiving defense kicking team opp : List (String × Val),
        List.lookup "fumbles" team = Option.none →
        (collegeFields d passing rushing receiving defense kicking team opp).getD 46 0 = 0) ∧
     (∀ d passing rushing receiving defense kicking team opp : List (String × Val),
        List.lookup "interceptions" team = Option.none →
        (collegeFields d passing rushing receiving defense kicking team opp).getD 47 0 = 0) ∧
     (∀ d passing rushing receiving defense kicking team opp : List (String × Val),
        List.lookup "pass_completions" opp = Option.none →
        (collegeFields d passing rushing receiving defense kicking team opp).getD 48 0 = 0) ∧
     (∀ d passing rushing receiving defense kicking team opp : List (String × Val),
        List.lookup "pass_attempts" opp = Option.none →
        (collegeFields d passing rushing receiving defense kicking team opp).getD 49 0 = 0) ∧
     (∀ d passing rushing receiving defense kicking team opp : List (String × Val),
        List.lookup "pass_yards" opp = Option.none →
        (collegeFields d passing rushing receiving defense kicking team opp).getD 50 0 = 0) ∧
     (∀ d passing rushing receiving defense kicking team opp : List (String × Val),
        List.lookup "pass_td" opp = Option.none →
        (collegeFields d passing rushing receiving defense kicking team opp).getD 51 0 = 0) ∧
     (∀ d passing rushing receiving defense kicking team opp : List (String × Val),
        List.lookup "rush_attempts" opp = Option.none →
        (collegeFields d passing rushing receiving defense kicking team opp).getD 52 0 = 0) ∧
     (∀ d passing rushing receiving defense kicking team opp : List (String × Val),
        List.lookup "rush_yards" opp = Option.none →
        (collegeFields d passing rushing receiving defense kicking team opp).getD 53 0 = 0) ∧
     (∀ d passing rushing receiving defense kicking team opp : List (String × Val),
        List.lookup "rush_td" opp = Option.none →
        (collegeFields d passing rushing receiving defense kicking team opp).getD 54 0 = 0) ∧
     (∀ d passing rushing receiving defense kicking team opp : List (String × Val),
        List.lookup "total_plays" opp = Option.none →
        (collegeFields d passing rushing receiving defense kicking team opp).getD 55 0 = 0) ∧
     (∀ d passing rushing receiving defense kicking team opp : List (String × Val),
        List.lookup "pass_1d" opp = Option.none →
        (collegeFields d passing rushing receiving defense kicking team opp).getD 56 0 = 0) ∧
     (∀ d passing rushing receiving defense kicking team opp : List (String × Val),
        List.lookup "rush_1d" opp = Option.none →
        (collegeFields d passing rushing receiving defense kicking team opp).getD 57 0 = 0) ∧
     (∀ d passing rushing receiving defense kicking team opp : List (String × Val),
        List.lookup "pen_1d" opp = Option.none →
        (collegeFields d passing rushing receiving defense kicking team opp).getD 58 0 = 0) ∧
     (∀ d passing rushing receiving defense kicking team opp : List (String × Val),
        List.lookup "penalties" opp = Option.none →
        (collegeFields d passing rushing receiving defense kicking team opp).getD 59 0 = 0) ∧
     (∀ d passing rushing receiving defense kicking team opp : List (String × Val),
        List.lookup "pen_yards" opp = Option.none →
        (collegeFields d passing rushing receiving defense kicking team opp).getD 60 0 = 0) ∧
     (∀ d passing rushing receiving defense kicking team opp : List (String × Val),
        List.lookup "fumbles" opp = Option.none →
        (collegeFields d passing rushing receiving defense kicking team opp).getD 61 0 = 0) ∧
     (∀ d passing rushing receiving defense kicking team opp : List (String × Val),
        List.lookup "interceptions" opp = Option.none →
        (collegeFields d passing rushing receiving defense kicking team opp).getD 62 0 = 0)) ∧
    ((∀ d passing rushing receiving defense kicking teamPerf : List (String × Val),
        List.lookup "seasons_played" d = Option.none →
        (nflFields d passing rushing receiving defense kicking teamPerf).getD 0 0 = 0) ∧
     (∀ d passing rushing receiving defense kicking teamPerf : List (String × Val),
        List.lookup "games_played" d = Option.none →
        (nflFields d passing rushing receiving defense kicking teamPerf).getD 1 0 = 0) ∧
     (∀ d passing rushing receiving defense kicking teamPerf : List (String × Val),
        List.lookup "games_started" d = Option.none →
        (nflFields d passing rushing receiving defense kicking teamPerf).getD 2 0 = 0) ∧
     (∀ d passing rushing receiving defense kicking teamPerf : List (String × Val),
        List.lookup "record" passing = Option.none →
        (nflFields d passing rushing receiving defense kicking teamPerf).getD 3 0 = 0) ∧
     (∀ d passing rushing receiving defense kicking teamPerf : List (String × Val),
        List.lookup "completions" passing = Option.none →
        (nflFields d passing rushing receiving defense kicking teamPerf).getD 4 0 = 0) ∧
     (∀ d passing rushing receiving defense kicking teamPerf : List (String × Val),
        List.lookup "attempts" passing = Option.none →
        (nflFields d passing rushing receiving defense kicking teamPerf).getD 5 0 = 0) ∧
     (∀ d passing rushing receiving defense kicking teamPerf : List (String × Val),
        List.lookup "yards" passing = Option.none →
        (nflFields d passing rushing receiving defense kicking teamPerf).getD 6 0 = 0) ∧
     (∀ d passing rushing receiving defense kicking teamPerf : List (String × Val),
        List.lookup "touchdowns" passing = Option.none →
        (nflFields d passing rushing receiving defense kicking teamPerf).getD 7 0 = 0) ∧
     (∀ d passing rushing receiving defense kicking teamPerf : List (String × Val),
        List.lookup "interceptions" passing = Option.none →
        (nflFields d passing rushing receiving defense kicking teamPerf).getD 8 0 = 0) ∧
     (∀ d passing rushing receiving defense kicking teamPerf : List (String × Val),
        List.lookup "first_downs" passing = Option.none →
        (nflFields d passing rushing receiving defense kicking teamPerf).getD 9 0 = 0) ∧
     (∀ d passing rushing receiving defense kicking teamPerf : List (String × Val),
        List.lookup "longest" passing = Option.none →
        (nflFields d passing rushing receiving defense kicking teamPerf).getD 10 0 = 0) ∧
     (∀ d passing rushing receiving defense kicking teamPerf : List (String × Val),
        List.lookup "sacked" passing = Option.none →
        (nflFields d passing rushing receiving defense kicking teamPerf).getD 11 0 = 0) ∧
     (∀ d passing rushing receiving defense kicking teamPerf : List (String × Val),
        List.lookup "4qc" passing = Option.none →
        (nflFields d passing rushing receiving defense kicking teamPerf).getD 12 0 = 0) ∧
     (∀ d passing rushing receiving defense kicking teamPerf : List (String × Val),
        List.lookup "gwd" passing = Option.none →
        (nflFields d passing rushing receiving defense kicking teamPerf).getD 13 0 = 0) ∧
     (∀ d passing rushing receiving defense kicking teamPerf : List (String × Val),
        List.lookup "attempts" rushing = Option.none →
        (nflFields d passing rushing receiving defense kicking teamPerf).getD 14 0 = 0) ∧
     (∀ d passing rushing receiving defense kicking teamPerf : List (String × Val),
        List.lookup "yards" rushing = Option.none →
        (nflFields d passing rushing receiving defense kicking teamPerf).getD 15 0 = 0) ∧
     (∀ d passing rushing receiving defense kicking teamPerf : List (String × Val),
        List.lookup "touchdowns" rushing = Option.none →
        (nflFields d passing rushing receiving defense kicking teamPerf).getD 16 0 = 0) ∧
     (∀ d passing rushing receiving defense kicking teamPerf : List (String × Val),
        List.lookup "first_downs" rushing = Option.none →
        (nflFields d passing rushing receiving defense kicking teamPerf).getD 17 0 = 0) ∧
     (∀ d passing rushing receiving defense kicking teamPerf : List (String × Val),
        List.lookup "longest" rushing = Option.none →
        (nflFields d passing rushing receiving defense kicking teamPerf).getD 18 0 = 0) ∧
     (∀ d passing rushing receiving defense kicking teamPerf : List (String × Val),
        List.lookup "targets" receiving = Option.none →
        (nflFields d passing rushing receiving defense kicking teamPerf).getD 19 0 = 0) ∧
     (∀ d passing rushing receiving defense kicking teamPerf : List (String × Val),
        List.lookup "receptions" receiving = Option.none →
        (nflFields d passing rushing receiving defense kicking teamPerf).getD 20 0 = 0) ∧
     (∀ d passing rushing receiving defense kicking teamPerf : List (String × Val),
        List.lookup "yards" receiving = Option.none →
        (nflFields d passing rushing receiving defense kicking teamPerf).getD 21 0 = 0) ∧
     (∀ d passing rushing receiving defense kicking teamPerf : List (String × Val),
        List.lookup "touchdowns" receiving = Option.none →
        (nflFields d passing rushing receiving defense kicking teamPerf).getD 22 0 = 0) ∧
     (∀ d passing rushing receiving defense kicking teamPerf : List (String × Val),
        List.lookup "first_downs" receiving = Option.none →
        (nflFields d passing rushing receiving defense kicking teamPerf).getD 23 0 = 0) ∧
     (∀ d passing rushing receiving defense kicking teamPerf : List (String × Val),
        List.lookup "longest" receiving = Option.none →
        (nflFields d passing rushing receiving defense kicking teamPerf).getD 24 0 = 0) ∧
     (∀ d passing rushing receiving defense kicking teamPerf : List (String × Val),
        List.lookup "interceptions" defense = Option.none →
        (nflFields d passing rushing receiving defense kicking teamPerf).getD 25 0 = 0) ∧
     (∀ d passing rushing receiving defense kicking teamPerf : List (String × Val),
        List.lookup "int_yards" defense = Option.none →
        (nflFields d passing rushing receiving defense kicking teamPerf).getD 26 0 = 0) ∧
     (∀ d passing rushing receiving defense kicking teamPerf : List (String × Val),
        List.lookup "int_td" defense = Option.none →
        (nflFields d passing rushing receiving defense kicking teamPerf).getD 27 0 = 0) ∧
     (∀ d passing rushing receiving defense kicking teamPerf : List (String × Val),
        List.lookup "int_longest" defense = Option.none →
        (nflFields d passing rushing receiving defense kicking teamPerf).getD 28 0 = 0) ∧
     (∀ d passing rushing receiving defense kicking teamPerf : List (String × Val),
        List.lookup "pd" defense = Option.none →
        (nflFields d passing rushing receiving defense kicking teamPerf).getD 29 0 = 0) ∧
     (∀ d passing rushing receiving defense kicking teamPerf : List (String × Val),
        List.lookup "ff" defense = Option.none →
        (nflFields d passing rushing receiving defense kicking teamPerf).getD 30 0 = 0) ∧
     (∀ d passing rushing receiving defense kicking teamPerf : List (String × Val),
        List.lookup "fumbles" defense = Option.none →
        (nflFields d passing rushing receiving defense kicking teamPerf).getD 31 0 = 0) ∧
     (∀ d passing rushing receiving defense kicking teamPerf : List (String × Val),
        List.lookup "fr" defense = Option.none →
        (nflFields d passing rushing receiving defense kicking teamPerf).getD 32 0 = 0) ∧
     (∀ d passing rushing receiving defense kicking teamPerf : List (String × Val),
        List.lookup "fr_yards" defense = Option.none →
        (nflFields d passing rushing receiving defense kicking teamPerf).getD 33 0 = 0) ∧
     (∀ d passing rushing receiving defense kicking teamPerf : List (String × Val),
        List.lookup "fr_td" defense = Option.none →
        (nflFields d passing rushing receiving defense kicking teamPerf).getD 34 0 = 0) ∧
     (∀ d passing rushing receiving defense kicking teamPerf : List (String × Val),
        List.lookup "sacks" defense = Option.none →
        (nflFields d passing rushing receiving defense kicking teamPerf).getD 35 0 = 0) ∧
     (∀ d passing rushing receiving defense kicking teamPerf : List (String × Val),
        List.lookup "solo_tackles" defense = Option.none →
        (nflFields d passing rushing receiving defense kicking teamPerf).getD 36 0 = 0) ∧
     (∀ d passing rushing receiving defense kicking teamPerf : List (String × Val),
        List.lookup "assisted_tackles" defense = Option.none →
        (nflFields d passing rushing receiving defense kicking teamPerf).getD 37 0 = 0) ∧
     (∀ d passing rushing receiving defense kicking teamPerf : List (String × Val),
        List.lookup "tfl" defense = Option.none →
        (nflFields d passing rushing receiving defense kicking teamPerf).getD 38 0 = 0) ∧
     (∀ d passing rushing receiving defense kicking teamPerf : List (String × Val),
        List.lookup "qb_hits" defense = Option.none →
        (nflFields d passing rushing receiving defense kicking teamPerf).getD 39 0 = 0) ∧
     (∀ d passing rushing receiving defense kicking teamPerf : List (String × Val),
        List.lookup "fga_0_19" kicking = Option.none →
        (nflFields d passing rushing receiving defense kicking teamPerf).getD 40 0 = 0) ∧
     (∀ d passing rushing receiving defense kicking teamPerf : List (String × Val),
        List.lookup "fgm_0_19" kicking = Option.none →
        (nflFields d passing rushing receiving defense kicking teamPerf).getD 41 0 = 0) ∧
     (∀ d passing rushing receiving defense kicking teamPerf : List (String × Val),
        List.lookup "fga_20_29" kicking = Option.none →
        (nflFields d passing rushing receiving defense kicking teamPerf).getD 42 0 = 0) ∧
     (∀ d passing rushing receiving defense kicking teamPerf : List (String × Val),
        List.lookup "fgm_20_29" kicking = Option.none →
        (nflFields d passing rushing receiving defense kicking teamPerf).getD 43 0 = 0) ∧
     (∀ d passing rushing receiving defense kicking teamPerf : List (String × Val),
        List.lookup "fga_30_39" kicking = Option.none →
        (nflFields d passing rushing receiving defense kicking teamPerf).getD 44 0 = 0) ∧
     (∀ d passing rushing receiving defense kicking teamPerf : List (String × Val),
        List.lookup "fgm_30_39" kicking = Option.none →
        (nflFields d passing rushing receiving defense kicking teamPerf).getD 45 0 = 0) ∧
     (∀ d passing rushing receiving defense kicking teamPerf : List (String × Val),
        List.lookup "fga_40_49" kicking = Option.none →
        (nflFields d passing rushing receiving defense kicking teamPerf).getD 46 0 = 0) ∧
     (∀ d passing rushing receiving defense kicking teamPerf : List (String × Val),
        List.lookup "fgm_40_49" kicking = Option.none →
        (nflFields d passing rushing receiving defense kicking teamPerf).getD 47 0 = 0) ∧
     (∀ d passing rushing receiving defense kicking teamPerf : List (String × Val),
        List.lookup "fga_50_plus" kicking = Option.none →
        (nflFields d passing rushing receiving defense kicking teamPerf).getD 48 0 = 0) ∧
     (∀ d passing rushing receiving defense kicking teamPerf : List (String × Val),
        List.lookup "fgm_50_plus" kicking = Option.none →
        (nflFields d passing rushing receiving defense kicking teamPerf).getD 49 0 = 0) ∧
     (∀ d passing rushing receiving defense kicking teamPerf : List (String × Val),
        List.lookup "longest" kicking = Option.none →
        (nflFields d passing rushing receiving defense kicking teamPerf).getD 50 0 = 0) ∧
     (∀ d passing rushing receiving defense kicking teamPerf : List (String × Val),
        List.lookup "xpa" kicking = Option.none →
        (nflFields d passing rushing receiving defense kicking teamPerf).getD 51 0 = 0) ∧
     (∀ d passing rushing receiving defense kicking teamPerf : List (String × Val),
        List.lookup "xpm" kicking = Option.none →
        (nflFields d passing rushing receiving defense kicking teamPerf).getD 52 0 = 0) ∧
     (∀ d passing rushing receiving defense kicking teamPerf : List (String × Val),
        List.lookup "punts" kicking = Option.none →
        (nflFields d passing rushing receiving defense kicking teamPerf).getD 53 0 = 0) ∧
     (∀ d passing rushing receiving defense kicking teamPerf : List (String × Val),
        List.lookup "punt_yards" kicking = Option.none →
        (nflFields d passing rushing receiving defense kicking teamPerf).getD 54 0 = 0) ∧
     (∀ d passing rushing receiving defense kicking teamPerf : List (String × Val),
        List.lookup "off_points" teamPerf = Option.none →
        (nflFields d passing rushing receiving defense kicking teamPerf).getD 55 0 = 0) ∧
     (∀ d passing rushing receiving defense kicking teamPerf : List (String × Val),
        List.lookup "off_yards" teamPerf = Option.none →
        (nflFields d passing rushing receiving defense kicking teamPerf).getD 56 0 = 0) ∧
     (∀ d passing rushing receiving defense kicking teamPerf : List (String × Val),
        List.lookup "off_plays" teamPerf = Option.none →
        (nflFields d passing rushing receiving defense kicking teamPerf).getD 57 0 = 0) ∧
     (∀ d passing rushing receiving defense kicking teamPerf : List (String × Val),
        List.lookup "off_turnovers" teamPerf = Option.none →
        (nflFields d passing rushing receiving defense kicking teamPerf).getD 58 0 = 0) ∧
     (∀ d passing rushing receiving defense kicking teamPerf : List (String × Val),
        List.lookup "off_fumbles" teamPerf = Option.none →
        (nflFields d passing rushing receiving defense kicking teamPerf).getD 59 0 = 0) ∧
     (∀ d passing rushing receiving defense kicking teamPerf : List (String × Val),
        List.lookup "off_1d" teamPerf = Option.none →
        (nflFields d passing rushing receiving defense kicking teamPerf).getD 60 0 = 0) ∧
     (∀ d passing rushing receiving defense kicking teamPerf : List (String × Val),
        List.lookup "pass_cmp" teamPerf = Option.none →
        (nflFields d passing rushing receiving defense kicking teamPerf).getD 61 0 = 0) ∧
     (∀ d passing rushing receiving defense kicking teamPerf : List (String × Val),
        List.lookup "pass_att" teamPerf = Option.none →
        (nflFields d passing rushing receiving defense kicking teamPerf).getD 62 0 = 0) ∧
     (∀ d passing rushing receiving defense kicking teamPerf : List (String × Val),
        List.lookup "pass_yds" teamPerf = Option.none →
        (nflFields d passing rushing receiving defense kicking teamPerf).getD 63 0 = 0) ∧
     (∀ d passing rushing receiving defense kicking teamPerf : List (String × Val),
        List.lookup "pass_td" teamPerf = Option.none →
        (nflFields d passing rushing receiving defense kicking teamPerf).getD 64 0 = 0) ∧
     (∀ d passing rushing receiving defense kicking teamPerf : List (String × Val),
        List.lookup "rush_att" teamPerf = Option.none →
        (nflFields d passing rushing receiving defense kicking teamPerf).getD 65 0 = 0) ∧
     (∀ d passing rushing receiving defense kicking teamPerf : List (String × Val),
        List.lookup "rush_yds" teamPerf = Option.none →
        (nflFields d passing rushing receiving defense kicking teamPerf).getD 66 0 = 0) ∧
     (∀ d passing rushing receiving defense kicking teamPerf : List (String × Val),
        List.lookup "rush_td" teamPerf = Option.none →
        (nflFields d passing rushing receiving defense kicking teamPerf).getD 67 0 = 0) ∧
     (∀ d passing rushing receiving defense kicking teamPerf : List (String × Val),
        List.lookup "penalties" teamPerf = Option.none →
        (nflFields d passing rushing receiving defense kicking teamPerf).getD 68 0 = 0) ∧
     (∀ d passing rushing receiving defense kicking teamPerf : List (String × Val),
        List.lookup "pen_yards" teamPerf = Option.none →
        (nflFields d passing rushing receiving defense kicking teamPerf).getD 69 0 = 0) ∧
     (∀ d passing rushing receiving defense kicking teamPerf : List (String × Val),
        List.lookup "def_points" teamPerf = Option.none →
        (nflFields d passing rushing receiving defense kicking teamPerf).getD 70 0 = 0) ∧
     (∀ d passing rushing receiving defense kicking teamPerf : List (String × Val),
        List.lookup "def_yards" teamPerf = Option.none →
        (nflFields d passing rushing receiving defense kicking teamPerf).getD 71 0 = 0) ∧
     (∀ d passing rushing receiving defense kicking teamPerf : List (String × Val),
        List.lookup "def_plays" teamPerf = Option.none →
        (nflFields d passing rushing receiving defense kicking teamPerf).getD 72 0 = 0) ∧
     (∀ d passing rushing receiving defense kicking teamPerf : List (String × Val),
        List.lookup "def_turnovers" teamPerf = Option.none →
        (nflFields d passing rushing receiving defense kicking teamPerf).getD 73 0 = 0) ∧
     (∀ d passing rushing receiving defense kicking teamPerf : List (String × Val),
        List.lookup "def_fumbles" teamPerf = Option.none →
        (nflFields d passing rushing receiving defense kicking teamPerf).getD 74 0 = 0) ∧
     (∀ d passing rushing receiving defense kicking teamPerf : List (String × Val),
        List.lookup "def_1d" teamPerf = Option.none →
        (nflFields d passing rushing receiving defense kicking teamPerf).getD 75 0 = 0) ∧
     (∀ d passing rushing receiving defense kicking teamPerf : List (String × Val),
        List.lookup "def_pass_cmp" teamPerf = Option.none →
        (nflFields d passing rushing receiving defense kicking teamPerf).getD 76 0 = 0) ∧
     (∀ d passing rushing receiving defense kicking teamPerf : List (String × Val),
        List.lookup "def_pass_att" teamPerf = Option.none →
        (nflFields d passing rushing receiving defense kicking teamPerf).getD 77 0 = 0) ∧
     (∀ d passing rushing receiving defense kicking teamPerf : List (String × Val),
        List.lookup "def_pass_yds" teamPerf = Option.none →
        (nflFields d passing rushing receiving defense kicking teamPerf).getD 78 0 = 0) ∧
     (∀ d passing rushing receiving defense kicking teamPerf : List (String × Val),
        List.lookup "def_pass_td" teamPerf = Option.none →
        (nflFields d passing rushing receiving defense kicking teamPerf).getD 79 0 = 0) ∧
     (∀ d passing rushing receiving defense kicking teamPerf : List (String × Val),
        List.lookup "def_rush_att" teamPerf = Option.none →
        (nflFields d passing rushing receiving defense kicking teamPerf).getD 80 0 = 0) ∧
     (∀ d passing rushing receiving defense kicking teamPerf : List (String × Val),
        List.lookup "def_rush_yds" teamPerf = Option.none →
        (nflFields d passing rushing receiving defense kicking teamPerf).getD 81 0 = 0) ∧
     (∀ d passing rushing receiving defense kicking teamPerf : List (String × Val),
        List.lookup "def_rush_td" teamPerf = Option.none →
        (nflFields d passing rushing receiving defense kicking teamPerf).getD 82 0 = 0) ∧
     (∀ d passing rushing receiving defense kicking teamPerf : List (String × Val),
        List.lookup "opp_penalties" teamPerf = Option.none →
        (nflFields d passing rushing receiving defense kicking teamPerf).getD 83 0 = 0) ∧
     (∀ d passing rushing receiving defense kicking teamPerf : List (String × Val),
        List.lookup "opp_pen_yards" teamPerf = Option.none →
        (nflFields d passing rushing receiving defense kicking teamPerf).getD 84 0 = 0)) ∧
    ((∀ (phash : String → Int) (sd : List (String × Val)),
        List.lookup "games_played" sd = Option.none →
        (seasonFields phash sd false).getD 1 0 = 0) ∧
     (∀ (phash : String → Int) (sd : List (String × Val)),
        List.lookup "games_started" sd = Option.none →
        (seasonFields phash sd false).getD 2 0 = 0) ∧
     (∀ (phash : String → Int) (sd : List (String × Val)),
        List.lookup "games_played" sd = Option.none →
        (seasonFields phash sd true).getD 0 0 = 0) ∧
     (∀ (phash : String → Int) (sd : List (String × Val)),
        List.lookup "games_started" sd = Option.none →
        (seasonFields phash sd true).getD 1 0 = 0)) := by
  refine ⟨?_, ?_, ?_, ?_, ?_, ?_⟩
  · intro phash d h1 h2 h3
    unfold build_roster_info_tensor
    rcases dGet d "draft_info" (Val.dict []) <;>
      refine ⟨?_, ?_, ?_⟩ <;>
      simp only [List.cons_append, List.nil_append, List.getD_cons_succ,
        List.getD_cons_zero] <;>
      first
        | (rw [dGet_of_lookup_none h1]; decide)
        | (rw [dGet_of_lookup_none h2]; decide)
        | (rw [dGet_of_lookup_none h3]; decide)
  · refine ⟨?_, ?_⟩ <;>
      (intro phash pd di hdi h
       unfold build_roster_info_tensor
       rw [hdi]
       exact absent_scalar_zero h)
  · exact ⟨fun cd h => absent_scalar_zero h,
      fun cd h => absent_scalar_zero h,
      fun cd h => absent_scalar_zero h,
      fun cd h => absent_scalar_zero h,
      fun cd h => absent_scalar_zero h,
      fun cd h => absent_scalar_zero h,
      fun cd h => absent_scalar_zero h,
      fun cd h => absent_scalar_zero h,
      fun cd h => absent_scalar_zero h⟩
  · exact ⟨fun d p r rc df kk t o h => absent_scalar_zero h,
      fun d p r rc df kk t o h => absent_scalar_zero h,
      fun d p r rc df kk t o h => absent_scalar_zero h,
      fun d p r rc df kk t o h => absent_scalar_zero h,
      fun d p r rc df kk t o h => absent_scalar_zero h,
      fun d p r rc df kk t o h => absent_scalar_zero h,
      fun d p r rc df kk t o h => absent_scalar_zero h,
      fun d p r rc df kk t o h => absent_scalar_zero h,
      fun d p r rc df kk t o h => absent_scalar_zero h,
      fun d p r rc df kk t o h => absent_scalar_zero h,
      fun d p r rc df kk t o h => absent_scalar_zero h,
      fun d p r rc df kk t o h => absent_scalar_zero h,
      fun d p r rc df kk t o h => absent_scalar_zero h,
      fun d p r rc df kk t o h => absent_scalar_zero h,
      fun d p r rc df kk t o h => absent_scalar_zero h,
      fun d p r rc df kk t o h => absent_scalar_zero h,
      fun d p r rc df kk t o h => absent_scalar_zero h,
      fun d p r rc df kk t o h => absent_scalar_zero h,
      fun d p r rc df kk t o h => absent_scalar_zero h,
      fun d p r rc df kk t o h => absent_scalar_zero h,
      fun d p r rc df kk t o h => absent_scalar_zero h,
      fun d p r rc df kk t o h => absent_scalar_zero h,
      fun d p r rc df kk t o h => absent_scalar_zero h,
      fun d p r rc df kk t o h => absent_scalar_zero h,
      fun d p r rc df kk t o h => absent_scalar_zero h,
      fun d p r rc df kk t o h => absent_scalar_zero h,
      fun d p r rc df kk t o h => absent_scalar_zero h,
      fun d p r rc df kk t o h => absent_scalar_zero h,
      fun d p r rc df kk t o h => absent_scalar_zero h,
      fun d p r rc df kk t o h => absent_scalar_zero h,
      fun d p r rc df kk t o h => absent_scalar_zero h,
      fun d p r rc df kk t o h => absent_scalar_zero h,
      fun d p r rc df kk t o h => absent_scalar_zero h,
      fun d p r rc df kk t o h => absent_scalar_zero h,
      fun d p r rc df kk t o h => absent_scalar_zero h,
      fun d p r rc df kk t o h => absent_scalar_zero h,
      fun d p r rc df kk t o h => absent_scalar_zero h,
      fun d p r rc df kk t o h => absent_scalar_zero h,
      fun d p r rc df kk t o h => absent_scalar_zero h,
      fun d p r rc df kk t o h => absent_scalar_zero h,
      fun d p r rc df kk t o h => absent_scalar_zero h,
      fun d p r rc df kk t o h => absent_scalar_zero h,
      fun d p r rc df kk t o h => absent_scalar_zero h,
      fun d p r rc df kk t o h => absent_scalar_zero h,
      fun d p r rc df kk t o h => absent_scalar_zero h,
      fun d p r rc df kk t o h => absent_scalar_zero h,
      fun d p r rc df kk t o h => absent_scalar_zero h,
      fun d p r rc df kk t o h => absent_scalar_zero h,
      fun d p r rc df kk t o h => absent_scalar_zero h,
      fun d p r rc df kk t o h => absent_scalar_zero h,
      fun d p r rc df kk t o h => absent_scalar_zero h,
      fun d p r rc df kk t o h => absent_scalar_zero h,
      fun d p r rc df kk t o h => absent_scalar_zero h,
      fun d p r rc df kk t o h => absent_scalar_zero h,
      fun d p r rc df kk t o h => absent_scalar_zero h,
      fun d p r rc df kk t o h => absent_scalar_zero h,
      fun d p r rc df kk t o h => absent_scalar_zero h,
      fun d p r rc df kk t o h => absent_scalar_zero h,
      fun d p r rc df kk t o h => absent_scalar_zero h,
      fun d p r rc df kk t o h => absent_scalar_zero h,
      fun d p r rc df kk t o h => absent_scalar_zero h,
      fun d p r rc df kk t o h => absent_scalar_zero h,
      fun d p r rc df kk t o h => absent_scalar_zero h⟩
  · exact ⟨fun d p r rc df kk tp h => absent_scalar_zero h,
      fun d p r rc df kk tp h => absent_scalar_zero h,
      fun d p r rc df kk tp h => absent_scalar_zero h,
      fun d p r rc df kk tp h => absent_scalar_zero h,
      fun d p r rc df kk tp h => absent_scalar_zero h,
      fun d p r rc df kk tp h => absent_scalar_zero h,
      fun d p r rc df kk tp h => absent_scalar_zero h,
      fun d p r rc df kk tp h => absent_scalar_zero h,
      fun d p r rc df kk tp h => absent_scalar_zero h,
      fun d p r rc df kk tp h => absent_scalar_zero h,
      fun d p r rc df kk tp h => absent_scalar_zero h,
      fun d p r rc df kk tp h => absent_scalar_zero h,
      fun d p r rc df kk tp h => absent_scalar_zero h,
      fun d p r rc df kk tp h => absent_scalar_zero h,
      fun d p r rc df kk tp h => absent_scalar_zero h,
      fun d p r rc df kk tp h => absent_scalar_zero h,
      fun d p r rc df kk tp h => absent_scalar_zero h,
      fun d p r rc df kk tp h => absent_scalar_zero h,
      fun d p r rc df kk tp h => absent_scalar_zero h,
      fun d p r rc df kk tp h => absent_scalar_zero h,
      fun d p r rc df kk tp h => absent_scalar_zero h,
      fun d p r rc df kk tp h => absent_scalar_zero h,
      fun d p r rc df kk tp h => absent_scalar_zero h,
      fun d p r rc df kk tp h => absent_scalar_zero h,
      fun d p r rc df kk tp h => absent_scalar_zero h,
      fun d p r rc df kk tp h => absent_scalar_zero h,
      fun d p r rc df kk tp h => absent_scalar_zero h,
      fun d p r rc df kk tp h => absent_scalar_zero h,
      fun d p r rc df kk tp h => absent_scalar_zero h,
      fun d p r rc df kk tp h => absent_scalar_zero h,
      fun d p r rc df kk tp h => absent_scalar_zero h,
      fun d p r rc df kk tp h => absent_scalar_zero h,
      fun d p r rc df kk tp h => absent_scalar_zero h,
      fun d p r rc df kk tp h => absent_scalar_zero h,
      fun d p r rc df kk tp h => absent_scalar_zero h,
      fun d p r rc df kk tp h => absent_scalar_zero h,
      fun d p r rc df kk tp h => absent_scalar_zero h,
      fun d p r rc df kk tp h => absent_scalar_zero h,
      fun d p r rc df kk tp h => absent_scalar_zero h,
      fun d p r rc df kk tp h => absent_scalar_zero h,
      fun d p r rc df kk tp h => absent_scalar_zero h,
      fun d p r rc df kk tp h => absent_scalar_zero h,
      fun d p r rc df kk tp h => absent_scalar_zero h,
      fun d p r rc df kk tp h => absent_scalar_zero h,
      fun d p r rc df kk tp h => absent_scalar_zero h,
      fun d p r rc df kk tp h => absent_scalar_zero h,
      fun d p r rc df kk tp h => absent_scalar_zero h,
      fun d p r rc df kk tp h => absent_scalar_zero h,
      fun d p r rc df kk tp h => absent_scalar_zero h,
      fun d p r rc df kk tp h => absent_scalar_zero h,
      fun d p r rc df kk tp h => absent_scalar_zero h,
      fun d p r rc df kk tp h => absent_scalar_zero h,
      fun d p r rc df kk tp h => absent_scalar_zero h,
      fun d p r rc df kk tp h => absent_scalar_zero h,
      fun d p r rc df kk tp h => absent_scalar_zero h,
      fun d p r rc df kk tp h => absent_scalar_zero h,
      fun d p r rc df kk tp h => absent_scalar_zero h,
      fun d p r rc df kk tp h => absent_scalar_zero h,
      fun d p r rc df kk tp h => absent_scalar_zero h,
      fun d p r rc df kk tp h => absent_scalar_zero h,
      fun d p r rc df kk tp h => absent_scalar_zero h,
      fun d p r rc df kk tp h => absent_scalar_zero h,
      fun d p r rc df kk tp h => absent_scalar_zero h,
      fun d p r rc df kk tp h => absent_scalar_zero h,
      fun d p r rc df kk tp h => absent_scalar_zero h,
      fun d p r rc df kk tp h => absent_scalar_zero h,
      fun d p r rc df kk tp h => absent_scalar_zero h,
      fun d p r rc df kk tp h => absent_scalar_zero h,
      fun d p r rc df kk tp h => absent_scalar_zero h,
      fun d p r rc df kk tp h => absent_scalar_zero h,
      fun d p r rc df kk tp h => absent_scalar_zero h,
      fun d p r rc df kk tp h => absent_scalar_zero h,
      fun d p r rc df kk tp h => absent_scalar_zero h,
      fun d p r rc df kk tp h => absent_scalar_zero h,
      fun d p r rc df kk tp h => absent_scalar_zero h,
      fun d p r rc df kk tp h => absent_scalar_zero h,
      fun d p r rc df kk tp h => absent_scalar_zero h,
      fun d p r rc df kk tp h => absent_scalar_zero h,
      fun d p r rc df kk tp h => absent_scalar_zero h,
      fun d p r rc df kk tp h => absent_scalar_zero h,
      fun d p r rc df kk tp h => absent_scalar_zero h,
      fun d p r rc df kk tp h => absent_scalar_zero h,
      fun d p r rc df kk tp h => absent_scalar_zero h,
      fun d p r rc df kk tp h => absent_scalar_zero h,
      fun d p r rc df kk tp h => absent_scalar_zero h⟩
  · exact ⟨fun phash sd h => absent_scalar_zero h,
      fun phash sd h => absent_scalar_zero h,
      fun phash sd h => absent_scalar_zero h,
      fun phash sd h => absent_scalar_zero h⟩

/-- C3 witness: the amended defaults and zero-encodings, instantiated at
concrete empty records and sub-mappings and a fixed process hash. -/
theorem C3_amended_witness :
    (build_roster_info_tensor zeroHash []).getD 2 0 = 1 ∧
    (build_roster_info_tensor zeroHash []).getD 6 0 = 2024 ∧
    (build_roster_info_tensor zeroHash []).getD 8 0 = 25 ∧
    (build_roster_info_tensor zeroHash [("draft_info", Val.dict [])]).getD 4 0 = 0 ∧
    (combineFields []).getD 0 0 = 0 ∧
    (collegeFields [] [] [] [] [] [] [] []).getD 0 0 = 0 ∧
    (nflFields [] [] [] [] [] [] []).getD 0 0 = 0 ∧
    (seasonFields zeroHash [] false).getD 1 0 = 0 :=
  ⟨(C3_amended.1 zeroHash [] rfl rfl rfl).1,
   (C3_amended.1 zeroHash [] rfl rfl rfl).2.1,
   (C3_amended.1 zeroHash [] rfl rfl rfl).2.2,
   C3_amended.2.1.1 zeroHash [("draft_info", Val.dict [])] [] rfl rfl,
   C3_amended.2.2.1.1 [] rfl,
   C3_amended.2.2.2.1.1 [] [] [] [] [] [] [] [] rfl,
   C3_amended.2.2.2.2.1.1 [] [] [] [] [] [] [] rfl,
   C3_amended.2.2.2.2.2.1 zeroHash [] rfl⟩

/-- C4: for every player record (and every process hash), the encoded
player vector has length exactly 670 and its final element (index 669) is
0: the eight section widths sum to 669 (9+13+64+116+117+117+117+116), so
the trailing slot of the zero-initialised array is never written. -/
theorem C4_player_width_reserved_slot (phash : String → Int) (v : Val) :
    (build_player_tensor phash v).length = 670 ∧
    (build_player_tensor phash v).getD 669 0 = 0 := by
  refine ⟨player_tensor_length phash v, ?_⟩
  unfold build_player_tensor
  rcases player_body_shape phash v with ⟨e, he⟩ | ⟨l, hl, hlen⟩
  · rw [he]
    rw [List.getD_eq_getElem?_getD, List.getElem?_replicate]
    norm_num
  · rw [hl, getD_append_right (by omega), hlen]
    rfl

/-- C5: the player encoder is total — for every input value, even one
whose nested sub-mappings are malformed or of the wrong type, it returns
either the normally-encoded 670-length vector (when the `try` body
succeeds) or the all-zero 670-length vector (when the body raises and the
catch-all `except` fires); a record whose `combine_stats` is the integer 5
exercises the degraded branch. -/
theorem C5_encoder_never_raises (phash : String → Int) (v : Val) :
    ((∃ t, build_player_tensor_body phash v = .ok t ∧
        build_player_tensor phash v = t ∧ t.length = 670) ∨
      build_player_tensor phash v = List.replicate 670 0) ∧
    build_player_tensor phash (Val.dict [("combine_stats", Val.int 5)]) =
      List.replicate 670 0 := by
  constructor
  · rcases player_body_shape phash v with ⟨e, he⟩ | ⟨l, hl, hlen⟩
    · right
      unfold build_player_tensor
      rw [he]
    · left
      refine ⟨l ++ [0], hl, ?_, ?_⟩
      · unfold build_player_tensor
        rw [hl]
      · simp only [List.length_append, hlen, List.length_cons, List.length_nil]
  · rfl

/-- C6: for every ordered list of player records, the roster encoding has
length 64·670 = 42,880; block `i` (the slice `[670·i, 670·i+670)`) equals
the player encoding of the `i`-th input record for `i < min(k, 64)`, and
is all-zero for `min(k, 64) ≤ i < 64`; records beyond the 64th are ignored
without error and input order is preserved. -/
theorem C6_roster_layout (phash : String → Int) (players : List Val) :
    (build_roster_tensor phash players).length = 42880 ∧
    (∀ i, i < min players.length 64 →
      ((build_roster_tensor phash players).drop (670 * i)).take 670 =
        build_player_tensor phash (players.getD i Val.none)) ∧
    (∀ i, min players.length 64 ≤ i → i < 64 →
      ((build_roster_tensor phash players).drop (670 * i)).take 670 =
        List.replicate 670 0) := by
  have htl : (players.take 64).length = min 64 players.length :=
    List.length_take 64 players
  refine ⟨roster_tensor_length phash players, ?_, ?_⟩
  · intro i hi
    have hi64 : i < 64 := lt_of_lt_of_le hi (min_le_right _ _)
    have hima : i < (players.take 64).length := by omega
    unfold build_roster_tensor
    rw [flatten_block (roster_rows_width phash players)
      (by rw [roster_rows_length]; omega)]
    rw [getD_append_left (by simpa using hima)]
    rw [List.getD_eq_getElem ((players.take 64).map (build_player_tensor phash))
      [] (by simpa using hima)]
    rw [List.getElem_map]
    congr 1
    rw [List.getElem_take]
    exact (List.getD_eq_getElem players Val.none (by omega)).symm
  · intro i hlo hhi
    have hge : (players.take 64).length ≤ i := by omega
    unfold build_roster_tensor
    rw [flatten_block (roster_rows_width phash players)
      (by rw [roster_rows_length]; omega)]
    rw [getD_append_right (by simpa using hge)]
    rw [List.getD_eq_getElem _ [] (by simp; omega)]
    exact List.getElem_replicate _ _

/-- C6 witness: a one-record roster, with its first block equal to the
record's player encoding and its second block all-zero. -/
theorem C6_roster_layout_witness :
    ((build_roster_tensor zeroHash [Val.dict []]).drop (670 * 0)).take 670 =
      build_player_tensor zeroHash (([Val.dict []] : List Val).getD 0 Val.none) ∧
    ((build_roster_tensor zeroHash [Val.dict []]).drop (670 * 1)).take 670 =
      List.replicate 670 0 :=
  ⟨(C6_roster_layout zeroHash [Val.dict []]).2.1 0 (by decide),
   (C6_roster_layout zeroHash [Val.dict []]).2.2 1 (by decide) (by decide)⟩

/-- C7: for every home roster, away roster and game-context record, the
game encoding is the pure concatenation home ++ away ++ context, of total
length 85,810; the slice [0, 42880) is exactly the home roster encoding,
[42880, 85760) exactly the away roster encoding and [85760, 85810) exactly
the context encoding, so each segment depends only on its own input. -/
theorem C7_game_concatenation (phash : String → Int) (home away : List Val)
    (d : List (String × Val)) :
    build_game_tensor phash home away (Val.dict d) =
      build_roster_tensor phash home ++ build_roster_tensor phash away ++
        gameInfoFields d ∧
    (build_game_tensor phash home away (Val.dict d)).length = 85810 ∧
    (build_game_tensor phash home away (Val.dict d)).take 42880 =
      build_roster_tensor phash home ∧
    ((build_game_tensor phash home away (Val.dict d)).drop 42880).take 42880 =
      build_roster_tensor phash away ∧
    (build_game_tensor phash home away (Val.dict d)).drop 85760 =
      gameInfoFields d := by
  have hE : build_game_tensor phash home away (Val.dict d) =
      build_roster_tensor phash home ++ build_roster_tensor phash away ++
        gameInfoFields d := rfl
  have hA := roster_tensor_length phash home
  have hB := roster_tensor_length phash away
  have hC := game_info_fields_length d
  refine ⟨hE, ?_, ?_, ?_, ?_⟩
  · rw [hE]
    simp only [List.length_append, hA, hB, hC]
  · rw [hE, List.append_assoc,
      show (42880 : Nat) = (build_roster_tensor phash home).length from hA.symm,
      List.take_left]
  · rw [hE, List.append_assoc,
      show (42880 : Nat) = (build_roster_tensor phash home).length from hA.symm,
      List.drop_left,
      show (build_roster_tensor phash home).length =
        (build_roster_tensor phash away).length from hA.trans hB.symm,
      List.take_left]
  · rw [hE,
      show (85760 : Nat) =
        (build_roster_tensor phash home ++ build_roster_tensor phash away).length
        from by simp only [List.length_append, hA, hB],
      List.drop_left]

/-- The play-state record of the spec's scenario, with the spec's abstract
field "distance" under the source's key `yards_to_go`. -/
def psdScenario : List (String × Val) :=
  [("down", Val.int 2), ("yards_to_go", Val.int 5), ("yard_line", Val.int 85),
   ("possession", Val.int 1), ("home_score", Val.int 14),
   ("away_score", Val.int 10)]

/-- C8: in the 20-wide play-state block, the red-zone flag (index 8) is 1
iff the yard line is ≤ 20 or ≥ 80; the goal-to-go flag (index 9) is 1 iff
the distance is ≥ the possession-relative signed yard line (the yard line
itself when possession == 1, else 100 − yard line); the score differential
(index 10) is home score − away score; and on the spec's scenario (down 2,
distance 5, yard line 85, possession home, score 14–10) the red-zone flag
is 1, goal-to-go is 0 and the differential is 4. -/
theorem C8_play_state_derived_fields :
    (∀ d : List (String × Val),
      ((playStateFields d).getD 8 0 = 1 ↔
        (safe_float (dGet d "yard_line" (Val.int 50)) 0 ≤ 20 ∨
         80 ≤ safe_float (dGet d "yard_line" (Val.int 50)) 0)) ∧
      ((playStateFields d).getD 9 0 = 1 ↔
        (if pyEqInt (dGet d "possession" (Val.int 0)) 1 then
            safe_float (dGet d "yard_line" (Val.int 50)) 0
          else 100 - safe_float (dGet d "yard_line" (Val.int 50)) 0) ≤
          safe_float (dGet d "yards_to_go" (Val.int 10)) 0) ∧
      (playStateFields d).getD 10 0 =
        safe_float (dGet d "home_score" (Val.int 0)) 0 -
          safe_float (dGet d "away_score" (Val.int 0)) 0) ∧
    (playStateFields psdScenario).getD 8 0 = 1 ∧
    (playStateFields psdScenario).getD 9 0 = 0 ∧
    (playStateFields psdScenario).getD 10 0 = 4 := by
  refine ⟨fun d => ⟨?_, ?_, rfl⟩, by decide, by decide, ?_⟩
  · show (if (safe_float (dGet d "yard_line" (Val.int 50)) 0 ≤ 20 ∨
        80 ≤ safe_float (dGet d "yard_line" (Val.int 50)) 0) then (1 : Rat)
        else 0) = 1 ↔ _
    by_cases h : (safe_float (dGet d "yard_line" (Val.int 50)) 0 ≤ 20 ∨
        80 ≤ safe_float (dGet d "yard_line" (Val.int 50)) 0) <;> simp [h]
  · show (if yardLineSigned d ≤ safe_float (dGet d "yards_to_go" (Val.int 10)) 0
        then (1 : Rat) else 0) = 1 ↔
        yardLineSigned d ≤ safe_float (dGet d "yards_to_go" (Val.int 10)) 0
    by_cases h : yardLineSigned d ≤
        safe_float (dGet d "yards_to_go" (Val.int 10)) 0 <;> simp [h]
  · show safe_float (Val.int 14) 0 - safe_float (Val.int 10) 0 = 4
    norm_num [safe_float, pyFloat]

lemma keywordFlag_eq_one_iff (text : Val) (kw : String) :
    keywordFlag text kw = 1 ↔ pyContains (pyLower (pyStr text)) kw = true := by
  unfold keywordFlag
  by_cases h : pyContains (pyLower (pyStr text)) kw <;> simp [h]

/-- The game-context record of the spec's scenario (no weather or surface
text). -/
def gidScenario : List (String × Val) :=
  [("temperature", Val.int 72), ("dome", Val.bool true),
   ("week", Val.int 1), ("season", Val.int 2024)]

/-- A weather description matching two keywords at once. -/
def rainFog : List (String × Val) := [("weather", Val.str "Rain and Fog")]

/-- C9: context-vector fields 10–14 are each 1 iff the corresponding
keyword (clear/cloudy/rain/snow/fog) occurs case-insensitively as a
substring of the free-text weather description, independently of the
others, and fields 15–16 apply the same policy to grass/turf over the
surface text (several flags can be 1 simultaneously — "Rain and Fog" sets
both 12 and 14 — or all can be 0); on the spec's scenario (temperature 72,
dome, week 1, season 2024, no weather/surface text) index 0 is 72, index 1
is 1 and indices 10–16 are all 0. -/
theorem C9_weather_surface_flags :
    (∀ d : List (String × Val),
      ((gameInfoFields d).getD 10 0 = 1 ↔
        pyContains (pyLower (pyStr (dGet d "weather" (Val.str "")))) "clear" = true) ∧
      ((gameInfoFields d).getD 11 0 = 1 ↔
        pyContains (pyLower (pyStr (dGet d "weather" (Val.str "")))) "cloudy" = true) ∧
      ((gameInfoFields d).getD 12 0 = 1 ↔
        pyContains (pyLower (pyStr (dGet d "weather" (Val.str "")))) "rain" = true) ∧
      ((gameInfoFields d).getD 13 0 = 1 ↔
        pyContains (pyLower (pyStr (dGet d "weather" (Val.str "")))) "snow" = true) ∧
      ((gameInfoFields d).getD 14 0 = 1 ↔
        pyContains (pyLower (pyStr (dGet d "weather" (Val.str "")))) "fog" = true) ∧
      ((gameInfoFields d).getD 15 0 = 1 ↔
        pyContains (pyLower (pyStr (dGet d "surface" (Val.str "")))) "grass" = true) ∧
      ((gameInfoFields d).getD 16 0 = 1 ↔
        pyContains (pyLower (pyStr (dGet d "surface" (Val.str "")))) "turf" = true)) ∧
    (gameInfoFields gidScenario).getD 0 0 = 72 ∧
    (gameInfoFields gidScenario).getD 1 0 = 1 ∧
    (gameInfoFields gidScenario).getD 10 0 = 0 ∧
    (gameInfoFields gidScenario).getD 11 0 = 0 ∧
    (gameInfoFields gidScenario).getD 12 0 = 0 ∧
    (gameInfoFields gidScenario).getD 13 0 = 0 ∧
    (gameInfoFields gidScenario).getD 14 0 = 0 ∧
    (gameInfoFields gidScenario).getD 15 0 = 0 ∧
    (gameInfoFields gidScenario).getD 16 0 = 0 ∧
    (gameInfoFields rainFog).getD 12 0 = 1 ∧
    (gameInfoFields rainFog).getD 14 0 = 1 ∧
    (gameInfoFields rainFog).getD 10 0 = 0 := by
  refine ⟨fun d => ⟨?_, ?_, ?_, ?_, ?_, ?_, ?_⟩, by decide, by decide, by decide,
    by decide, by decide, by decide, by decide, by decide, by decide, by decide,
    by decide, by decide⟩ <;>
    exact keywordFlag_eq_one_iff _ _

/-- C10: absent fields at the public encoding interface get fixed nonzero
defaults, not zero: a game context missing `temperature` encodes 70 at
index 0, missing `season` encodes 2024 at index 4, missing
`start_time_hour` encodes 13 at index 17; a play state missing `quarter`,
`time_remaining`, `yard_line`, `timeouts_home` or `timeouts_away` encodes
1, 900, 50, 3 and 3 at indices 0, 1, 4, 12 and 13; and the empty player
record does not encode to the all-zero null-player vector: its roster-tier,
roster-season and age slots are 1, 2024 and 25 and its identity slot holds
the categorical code of the string "unknown". -/
theorem C10_nonzero_interface_defaults :
    (∀ d : List (String × Val), List.lookup "temperature" d = Option.none →
      (gameInfoFields d).getD 0 0 = 70) ∧
    (∀ d : List (String × Val), List.lookup "season" d = Option.none →
      (gameInfoFields d).getD 4 0 = 2024) ∧
    (∀ d : List (String × Val), List.lookup "start_time_hour" d = Option.none →
      (gameInfoFields d).getD 17 0 = 13) ∧
    (∀ d : List (String × Val), List.lookup "quarter" d = Option.none →
      (playStateFields d).getD 0 0 = 1) ∧
    (∀ d : List (String × Val), List.lookup "time_remaining" d = Option.none →
      (playStateFields d).getD 1 0 = 900) ∧
    (∀ d : List (String × Val), List.lookup "yard_line" d = Option.none →
      (playStateFields d).getD 4 0 = 50) ∧
    (∀ d : List (String × Val), List.lookup "timeouts_home" d = Option.none →
      (playStateFields d).getD 12 0 = 3) ∧
    (∀ d : List (String × Val), List.lookup "timeouts_away" d = Option.none →
      (playStateFields d).getD 13 0 = 3) ∧
    (∀ phash : String → Int,
      (build_player_tensor phash (Val.dict [])).getD 2 0 = 1 ∧
      (build_player_tensor phash (Val.dict [])).getD 6 0 = 2024 ∧
      (build_player_tensor phash (Val.dict [])).getD 8 0 = 25 ∧
      (build_player_tensor phash (Val.dict [])).getD 0 0 =
        ((categorical_code phash "unknown" 1000000 : Nat) : Rat) ∧
      build_player_tensor phash (Val.dict []) ≠ List.replicate 670 0) := by
  refine ⟨?_, ?_, ?_, ?_, ?_, ?_, ?_, ?_, ?_⟩
  · intro d h
    show safe_float (dGet d "temperature" (Val.int 70)) 0 = 70
    rw [dGet_of_lookup_none h]; decide
  · intro d h
    show safe_float (dGet d "season" (Val.int 2024)) 0 = 2024
    rw [dGet_of_lookup_none h]; decide
  · intro d h
    show safe_float (dGet d "start_time_hour" (Val.int 13)) 0 = 13
    rw [dGet_of_lookup_none h]; decide
  · intro d h
    show safe_float (dGet d "quarter" (Val.int 1)) 0 = 1
    rw [dGet_of_lookup_none h]; decide
  · intro d h
    show safe_float (dGet d "time_remaining" (Val.int 900)) 0 = 900
    rw [dGet_of_lookup_none h]; decide
  · intro d h
    show safe_float (dGet d "yard_line" (Val.int 50)) 0 = 50
    rw [dGet_of_lookup_none h]; decide
  · intro d h
    show safe_float (dGet d "timeouts_home" (Val.int 3)) 0 = 3
    rw [dGet_of_lookup_none h]; decide
  · intro d h
    show safe_float (dGet d "timeouts_away" (Val.int 3)) 0 = 3
    rw [dGet_of_lookup_none h]; decide
  · intro phash
    have h2 : (build_player_tensor phash (Val.dict [])).getD 2 0 = 1 := by
      show safe_float (Val.int 1) 0 = 1
      decide
    refine ⟨h2, ?_, ?_, rfl, ?_⟩
    · show safe_float (Val.int 2024) 0 = 2024
      decide
    · show safe_float (Val.int 25) 0 = 25
      decide
    · intro hEq
      rw [hEq, List.getD_eq_getElem?_getD, List.getElem?_replicate] at h2
      norm_num at h2

/-- C10 witness: the nonzero defaults, instantiated at the empty context,
empty play state, empty player record and a fixed process hash. -/
theorem C10_nonzero_defaults_witness :
    (gameInfoFields []).getD 0 0 = 70 ∧
    (gameInfoFields []).getD 4 0 = 2024 ∧
    (gameInfoFields []).getD 17 0 = 13 ∧
    (playStateFields []).getD 0 0 = 1 ∧
    (playStateFields []).getD 1 0 = 900 ∧
    (playStateFields []).getD 4 0 = 50 ∧
    (playStateFields []).getD 12 0 = 3 ∧
    (playStateFields []).getD 13 0 = 3 ∧
    (build_player_tensor zeroHash (Val.dict [])).getD 2 0 = 1 :=
  ⟨C10_nonzero_interface_defaults.1 [] rfl,
   C10_nonzero_interface_defaults.2.1 [] rfl,
   C10_nonzero_interface_defaults.2.2.1 [] rfl,
   C10_nonzero_interface_defaults.2.2.2.1 [] rfl,
   C10_nonzero_interface_defaults.2.2.2.2.1 [] rfl,
   C10_nonzero_interface_defaults.2.2.2.2.2.1 [] rfl,
   C10_nonzero_interface_defaults.2.2.2.2.2.2.1 [] rfl,
   C10_nonzero_interface_defaults.2.2.2.2.2.2.2.1 [] rfl,
   (C10_nonzero_interface_defaults.2.2.2.2.2.2.2.2 zeroHash).1⟩
